import Mathlib

/-!
# Agent locomotion and collision orchestration of `deep_nature_alliance`

A shallow embedding of `src/game/agent.cpp` (`Agent::UpMove`, `WalkingMove`, `DownMove`,
`Update`, `DownCollision`, `UpCollision`, `OnGround`, `Jump`) and of `Game::CheckCollisions`
from `src/game/game.cpp`.

Modelling conventions.

* The C++ `float`/`double` scalars are idealised as elements of a linearly ordered field `F`
  (exact arithmetic, no rounding, no NaN, no infinities).  Definitions are generic in `F`, so
  they compute over `ℚ` and specialise to `ℝ`.
* The two transcendental GLM primitives the code reaches (`sqrt`, through `glm::length` and
  `glm::normalize`, and `glm::pow`) are the fields of a record `Glm F`.  `realGlm` is their
  meaning over `ℝ`.
* Member variables keep their C++ names, trailing underscore included.
* The terrain is a read-only collaborator and is passed as an argument.
* The diagnostic `printf` of `WalkingMove` has no effect on the agent and is not modelled.
-/

namespace DNA

/-! ## GLM vectors -/

/-- The type `glm::vec3` over the scalar type `F`. -/
structure Vec3 (F : Type) where
  x : F
  y : F
  z : F
deriving DecidableEq

/-- The type `glm::quat` over the scalar type `F`. -/
structure Quat (F : Type) where
  x : F
  y : F
  z : F
  w : F
deriving DecidableEq

/-- The transcendental primitives of GLM used by the code: `glm::sqrt` and `glm::pow`. -/
structure Glm (F : Type) where
  sqrt : F → F
  pow : F → F → F

/-- GLM over the real numbers: the real square root and the real power function. -/
noncomputable def realGlm : Glm ℝ where
  sqrt := Real.sqrt
  pow := fun b e => b ^ e

section Vectors

variable {F : Type} [LinearOrderedField F]

instance : Add (Vec3 F) := ⟨fun a b => ⟨a.x + b.x, a.y + b.y, a.z + b.z⟩⟩

instance : Sub (Vec3 F) := ⟨fun a b => ⟨a.x - b.x, a.y - b.y, a.z - b.z⟩⟩

/-- Vector times scalar, `v * s` of GLM. -/
instance : HMul (Vec3 F) F (Vec3 F) := ⟨fun v s => ⟨v.x * s, v.y * s, v.z * s⟩⟩

/-- The vector `glm::vec3(0.0f)`. -/
def Vec3.zero : Vec3 F := ⟨0, 0, 0⟩

/-- The function `glm::dot` on `vec3`. -/
def dot (a b : Vec3 F) : F := a.x * b.x + a.y * b.y + a.z * b.z

/-- The function `glm::cross`. -/
def cross (a b : Vec3 F) : Vec3 F :=
  ⟨a.y * b.z - b.y * a.z, a.z * b.x - b.z * a.x, a.x * b.y - b.x * a.y⟩

/-- The function `glm::length` on `vec3`: `sqrt(dot(v, v))`. -/
def length (L : Glm F) (v : Vec3 F) : F := L.sqrt (dot v v)

/-- The function `glm::normalize` on `vec3`: `v * inversesqrt(dot(v, v))`. -/
def normalize (L : Glm F) (v : Vec3 F) : Vec3 F := v * (1 / L.sqrt (dot v v))

/-- Rotation of a vector by a quaternion, `q * v` of GLM; `q * vec4(v, 0)` has this `xyz` part. -/
def Quat.rotate (q : Quat F) (v : Vec3 F) : Vec3 F :=
  let QuatVector : Vec3 F := ⟨q.x, q.y, q.z⟩
  let uv := cross QuatVector v
  let uuv := cross QuatVector uv
  v + (uv * q.w + uuv) * (2 : F)

/-- The function `glm::mix` on scalars: linear blend `x * (1 - a) + y * a`. -/
def mix (x y a : F) : F := x * (1 - a) + y * a

end Vectors

/-! ## Collaborators of the agent -/

section Model

variable {F : Type} [LinearOrderedField F]

/-- Modelled from the spec: the class `Transform` (transform.h is not among the sources), reduced
to the two members the locomotion code reads and writes, with the accessors of spec §4.1. -/
structure Transform (F : Type) where
  position : Vec3 F
  orientation : Quat F

/-- The accessor `Transform::GetPosition`. -/
def Transform.GetPosition (t : Transform F) : Vec3 F := t.position

/-- The accessor `Transform::GetOrientation`. -/
def Transform.GetOrientation (t : Transform F) : Quat F := t.orientation

/-- The mutator `Transform::SetPosition`. -/
def Transform.SetPosition (t : Transform F) (p : Vec3 F) : Transform F := { t with position := p }

/-- Modelled from the spec: the terrain sampler (spec §4.2, its class is not among the sources):
three pure queries at a planar coordinate; `SamplePassable` returns `true` for a blocked place. -/
structure Terrain (F : Type) where
  SampleHeight : F → F → F
  SamplePassable : F → F → Bool
  SampleSlope : F → F → F

/-- The member variables of `Agent` that `agent.cpp` reads or writes (agent.h is not among the
sources, so `up_` and the tunables are fields without a fixed initial value). -/
structure Agent (F : Type) where
  transform : Transform F
  target_position_ : Vec3 F
  prev_position_ : Vec3 F
  walk_direction_ : Vec3 F
  strafe_left_ : Vec3 F
  strafe_right_ : Vec3 F
  forward_ : Vec3 F
  backward_ : Vec3 F
  vertical_velocity_ : F
  vertical_offset_ : F
  step_offset_ : F
  on_ground_ : Bool
  jumping_ : Bool
  jump_axis_ : Vec3 F
  up_ : Vec3 F
  speed_ : F
  height_ : F
  step_height_ : F
  fall_speed_ : F
  jump_speed_ : F
  base_jump_speed_ : F
  gravity_ : F
  movement_damping_ : F

/-! ## `agent.cpp` -/

/-- The method `Agent::UpMove` (agent.cpp lines 8-28). -/
def Agent.UpMove (terrain : Terrain F) (a : Agent F) (_dt : F) : Agent F :=
  let step_height : F := if a.vertical_velocity_ < 0 then a.step_height_ else 0
  let up_position_ : Vec3 F :=
    a.transform.GetPosition + a.up_ * a.step_height_ +
      a.jump_axis_ * (if a.vertical_offset_ > 0 then a.vertical_offset_ else 0)
  if terrain.SamplePassable up_position_.x up_position_.z then
    a
  else
    let a1 := { a with target_position_ := up_position_ }
    let a2 := { a1 with transform := a1.transform.SetPosition a1.target_position_ }
    { a2 with step_offset_ := step_height }

/-- The world-space forward vector of `Agent::WalkingMove` (agent.cpp line 35). -/
def Agent.walkForward (L : Glm F) (a : Agent F) (move : Vec3 F) : Vec3 F :=
  normalize L (a.transform.GetOrientation.rotate (normalize L move))

/-- The candidate `target_step_` of `Agent::WalkingMove` (agent.cpp line 36). -/
def Agent.walkCandidate (L : Glm F) (a : Agent F) (move : Vec3 F) : Vec3 F :=
  a.target_position_ + a.walkForward L move * a.speed_

/-- The method `Agent::WalkingMove` (agent.cpp lines 30-52).  The locals `terrainY` and `slope`
only feed the diagnostic `printf` and are left out. -/
def Agent.WalkingMove (L : Glm F) (terrain : Terrain F) (a : Agent F) (move : Vec3 F) (dt : F) :
    Agent F :=
  if length L move > 1 / 1000 then
    let forward := a.walkForward L move
    let target_step_ := a.walkCandidate L move
    if terrain.SamplePassable target_step_.x target_step_.z then
      a
    else
      let terrain_nextY := terrain.SampleHeight target_step_.x target_step_.z
      let sampledslope := terrain.SampleSlope target_step_.x target_step_.z
      if sampledslope < 1 / 2 ∨ a.target_position_.y > terrain_nextY + a.height_ * 4 then
        let a1 := { a with target_position_ := a.target_position_ + forward * a.speed_ * dt * (100 : F) }
        { a1 with transform := a1.transform.SetPosition a1.target_position_ }
      else
        a
  else
    a

/-- The method `Agent::DownMove` (agent.cpp lines 54-104). -/
def Agent.DownMove (terrain : Terrain F) (a : Agent F) (dt : F) : Agent F :=
  let down_velocity0 : F := (if a.vertical_velocity_ < 0 then -a.vertical_velocity_ else 0) * dt
  let down_velocity : F :=
    if down_velocity0 > 0 ∧ down_velocity0 > a.fall_speed_ ∧ (a.on_ground_ ∨ ¬ a.jumping_) then
      a.fall_speed_
    else
      down_velocity0
  let drop_amount := a.up_ * (a.step_offset_ + down_velocity)
  let a1 := { a with target_position_ := a.target_position_ - drop_amount }
  let terrainY := terrain.SampleHeight a1.target_position_.x a1.target_position_.z
  if a1.target_position_.y < terrainY + a1.height_ then
    let a2 := { a1 with target_position_ := { a1.target_position_ with y := terrainY + a1.height_ } }
    let a3 := { a2 with transform := a2.transform.SetPosition a2.target_position_ }
    { a3 with vertical_velocity_ := 0, vertical_offset_ := 0, jumping_ := false }
  else
    { a1 with transform := a1.transform.SetPosition a1.target_position_ }

/-- The method `Agent::OnGround` (agent.cpp lines 171-174); `EPSILON` is a macro of a header that
is not among the sources and is a parameter here. -/
def Agent.OnGround (EPSILON : F) (a : Agent F) : Bool :=
  decide (|a.vertical_velocity_| < EPSILON) && decide (|a.vertical_offset_| < EPSILON)

/-- The factor `glm::pow(1.0f - movement_damping_, dt)` of `Agent::Update` (lines 114 and 117). -/
def Agent.dampingFactor (L : Glm F) (a : Agent F) (dt : F) : F :=
  L.pow (1 - a.movement_damping_) dt

/-- The damping step of `Agent::Update` (agent.cpp lines 112-117). -/
def Agent.dampingStep (L : Glm F) (a : Agent F) (dt : F) : Agent F :=
  let a1 :=
    if length L a.walk_direction_ > 0 then
      { a with walk_direction_ := a.walk_direction_ * a.dampingFactor L dt }
    else
      a
  { a1 with vertical_velocity_ := a1.vertical_velocity_ * a1.dampingFactor L dt }

/-- The gravity integration and the two clamps of `Agent::Update` (agent.cpp lines 119-127). -/
def Agent.gravityStep (a : Agent F) (dt : F) : Agent F :=
  let a1 := { a with vertical_velocity_ := a.vertical_velocity_ - a.gravity_ * dt }
  let a2 :=
    if a1.vertical_velocity_ > 0 ∧ a1.vertical_velocity_ > a1.jump_speed_ then
      { a1 with vertical_velocity_ := a1.jump_speed_ }
    else
      a1
  if a2.vertical_velocity_ < 0 ∧ |a2.vertical_velocity_| > |a2.fall_speed_| then
    { a2 with vertical_velocity_ := -|a2.fall_speed_| }
  else
    a2

/-- The recomputation of `walk_direction_` in `Agent::Update` (agent.cpp lines 132-137). -/
def Agent.walkDirectionStep (L : Glm F) (a : Agent F) : Agent F :=
  let a1 :=
    { a with walk_direction_ := a.strafe_left_ + a.strafe_right_ + a.forward_ + a.backward_ }
  if a1.walk_direction_ ≠ Vec3.zero then
    { a1 with walk_direction_ := normalize L a1.walk_direction_ }
  else
    a1

/-- Modelled from the spec: `SceneNode::Update` (scene_node.cpp is not among the sources) only
propagates the update to the children of the node (spec §4.3 step 10); the agent's own state is
left as it is. -/
def SceneNode_Update (a : Agent F) (_dt : F) : Agent F := a

/-- The method `Agent::Update` (agent.cpp lines 106-146). -/
def Agent.Update (L : Glm F) (EPSILON : F) (terrain : Terrain F) (a : Agent F) (dt : F) :
    Agent F :=
  let a1 := { a with prev_position_ := a.transform.GetPosition }
  let a2 := { a1 with on_ground_ := a1.OnGround EPSILON }
  let a3 := a2.dampingStep L dt
  let a4 := a3.gravityStep dt
  let a5 := { a4 with vertical_offset_ := a4.vertical_velocity_ * dt }
  let a6 := a5.UpMove terrain dt
  let a7 := a6.walkDirectionStep L
  let a8 := a7.WalkingMove L terrain a7.walk_direction_ dt
  let a9 := a8.DownMove terrain dt
  SceneNode_Update a9 dt

/-- The method `Agent::DownCollision` (agent.cpp lines 149-163). -/
def Agent.DownCollision (a : Agent F) (collision_point_y : F) : Agent F :=
  if a.target_position_.y ≤ collision_point_y + a.height_ then
    let position := a.transform.GetPosition
    let fraction : F := (position.y - (collision_point_y + a.height_)) * (1 / 2)
    let blended : Vec3 F := ⟨position.x, mix a.prev_position_.y position.y fraction, position.z⟩
    let a1 := { a with transform := a.transform.SetPosition blended }
    { a1 with vertical_velocity_ := 0, vertical_offset_ := 0, jumping_ := false }
  else
    a

/-- The method `Agent::UpCollision` (agent.cpp lines 165-169). -/
def Agent.UpCollision (a : Agent F) : Agent F :=
  { a with vertical_velocity_ := 0, vertical_offset_ := 0 }

/-- The method `Agent::Jump` (agent.cpp lines 216-224). -/
def Agent.Jump (L : Glm F) (a : Agent F) (v : Vec3 F) : Agent F :=
  let len := length L v
  let a1 := { a with jump_speed_ := if len = 0 then a.base_jump_speed_ else len }
  let a2 := { a1 with vertical_velocity_ := a1.jump_speed_ }
  let a3 := { a2 with jumping_ := true }
  { a3 with jump_axis_ := if len = 0 then a3.up_ else normalize L v }

/-- The members that no stage of `Agent::Update` writes: the four directional intents, the up
axis and the tunable constants. -/
def Agent.tunables (a : Agent F) :
    Vec3 F × Vec3 F × Vec3 F × Vec3 F × Vec3 F × F × F × F × F × F × F × F × F :=
  (a.strafe_left_, a.strafe_right_, a.forward_, a.backward_, a.up_, a.speed_, a.height_,
    a.step_height_, a.fall_speed_, a.jump_speed_, a.base_jump_speed_, a.gravity_,
    a.movement_damping_)

/-! ## `game.cpp` -/

/-- The constant `beacon_hitbox_g` (game.cpp line 43). -/
def beacon_hitbox_g : F := 15

/-- The constant `player_hitbox_g` (game.cpp line 44). -/
def player_hitbox_g : F := 1 / 2

/-- The constant `enemy_hitbox_g` (game.cpp line 45). -/
def enemy_hitbox_g : F := 1 / 2

/-- The constant `powerup_hitbox_g` (game.cpp line 46). -/
def powerup_hitbox_g : F := 2

/-- The constant `speed_upgrade_g` (game.cpp line 47). -/
def speed_upgrade_g : F := 1 / 2

/-- Modelled from the spec: a tracked scene node (beacon, enemy or powerup; scene_node.h is not
among the sources) with the members `Game::CheckCollisions` touches: its transform and the
gameplay flags `inverted` and `active` of spec §3. -/
structure SceneNode (F : Type) where
  transform : Transform F
  inverted : Bool
  active : Bool

/-- Modelled from the spec: the player node with the members `Game::CheckCollisions` touches
(its class is not among the sources): transform, `lives` and `move_speed`. -/
structure Player (F : Type) where
  transform : Transform F
  lives : Int
  move_speed : F

/-- The members of `Game` used by `Game::CheckCollisions` (the header that declares them is not
among the sources).  The tracked nodes are distinct objects, held by value.  `background` is
the colour last passed to `scene_.SetBackgroundColor`, `console` the lines written to
`std::cout`. -/
structure Game (F : Type) where
  player : Player F
  beacons : List (SceneNode F)
  enemies : List (SceneNode F)
  powerups : List (SceneNode F)
  active_beacon_index : Nat
  background : Vec3 F
  console : List String

/-- The beacon check of `Game::CheckCollisions` (game.cpp lines 245-257).  An access
`beacons[i]` outside the vector is undefined behaviour in C++ and gives `none`. -/
def Game.checkBeacons (L : Glm F) (g : Game F) : Option (Game F) :=
  match g.beacons[g.active_beacon_index]? with
  | none => none
  | some b =>
    let beacon_distance := length L (g.player.transform.position - b.transform.position)
    if beacon_distance < player_hitbox_g + beacon_hitbox_g then
      let g1 := { g with beacons := g.beacons.set g.active_beacon_index { b with inverted := false } }
      let g2 := { g1 with active_beacon_index := g1.active_beacon_index + 1 }
      let g3 :=
        if g2.active_beacon_index = g2.beacons.length then
          { g2 with background := ⟨0, 1, 0⟩, console := g2.console ++ ["WINNER!"] }
        else
          g2
      match g3.beacons[g3.active_beacon_index]? with
      | none => none
      | some b2 =>
        some { g3 with beacons := g3.beacons.set g3.active_beacon_index { b2 with inverted := true } }
    else
      some g

/-- The enemy loop of `Game::CheckCollisions` (game.cpp lines 260-271) over the enemies still
to visit; returns the game state and the visited enemies. -/
def Game.enemyLoop (L : Glm F) (g : Game F) : List (SceneNode F) → Game F × List (SceneNode F)
  | [] => (g, [])
  | e :: rest =>
    let dist := length L (g.player.transform.position - e.transform.position)
    if dist < player_hitbox_g + enemy_hitbox_g ∧ e.active = true then
      let g1 := { g with player := { g.player with lives := g.player.lives - 1 } }
      let g2 := { g1 with player := { g1.player with move_speed := g1.player.move_speed - speed_upgrade_g } }
      let e1 := { e with active := false }
      let g3 :=
        if g2.player.lives < 1 then
          { g2 with background := ⟨1, 0, 0⟩, console := g2.console ++ ["LOSER!"] }
        else
          g2
      let r := Game.enemyLoop L g3 rest
      (r.1, e1 :: r.2)
    else
      let r := Game.enemyLoop L g rest
      (r.1, e :: r.2)

/-- The powerup loop of `Game::CheckCollisions` (game.cpp lines 273-281) over the powerups still
to visit; returns the game state and the visited powerups. -/
def Game.powerupLoop (L : Glm F) (g : Game F) : List (SceneNode F) → Game F × List (SceneNode F)
  | [] => (g, [])
  | p :: rest =>
    let dist := length L (g.player.transform.position - p.transform.position)
    if dist < player_hitbox_g + powerup_hitbox_g ∧ p.active = true then
      let g1 := { g with player := { g.player with lives := g.player.lives + 1 } }
      let g2 := { g1 with player := { g1.player with move_speed := g1.player.move_speed + speed_upgrade_g } }
      let p1 := { p with active := false, inverted := false }
      let r := Game.powerupLoop L g2 rest
      (r.1, p1 :: r.2)
    else
      let r := Game.powerupLoop L g rest
      (r.1, p :: r.2)

/-- The method `Game::CheckCollisions` (game.cpp lines 244-283). -/
def Game.CheckCollisions (L : Glm F) (g : Game F) : Option (Game F) :=
  match g.checkBeacons L with
  | none => none
  | some g1 =>
    let re := Game.enemyLoop L g1 g1.enemies
    let g2 := { re.1 with enemies := re.2 }
    let rp := Game.powerupLoop L g2 g2.powerups
    some { rp.1 with powerups := rp.2 }

/-! ## Concrete worlds and agents used to exercise the definitions -/

/-- Flat terrain: height `H` everywhere, nowhere blocked, slope zero. -/
def flatTerrain (H : F) : Terrain F where
  SampleHeight := fun _ _ => H
  SamplePassable := fun _ _ => false
  SampleSlope := fun _ _ => 0

/-- Flat terrain of height zero that is blocked everywhere. -/
def blockedTerrain : Terrain F where
  SampleHeight := fun _ _ => 0
  SamplePassable := fun _ _ => true
  SampleSlope := fun _ _ => 0

/-- An agent at `(0, y, 0)` facing along the identity orientation, at rest, with no directional
input, world-up `(0, 1, 0)`, body height 1, speed 1, step height 1/2, fall speed 1, jump speed 5,
gravity 10 and damping 1/2. -/
def restingAgent (y : F) : Agent F where
  transform := { position := ⟨0, y, 0⟩, orientation := ⟨0, 0, 0, 1⟩ }
  target_position_ := ⟨0, y, 0⟩
  prev_position_ := ⟨0, y, 0⟩
  walk_direction_ := Vec3.zero
  strafe_left_ := Vec3.zero
  strafe_right_ := Vec3.zero
  forward_ := Vec3.zero
  backward_ := Vec3.zero
  vertical_velocity_ := 0
  vertical_offset_ := 0
  step_offset_ := 0
  on_ground_ := false
  jumping_ := false
  jump_axis_ := ⟨0, 1, 0⟩
  up_ := ⟨0, 1, 0⟩
  speed_ := 1
  height_ := 1
  step_height_ := 1 / 2
  fall_speed_ := 1
  jump_speed_ := 5
  base_jump_speed_ := 5
  gravity_ := 10
  movement_damping_ := 1 / 2

/-- Flat open ground of height zero with a wall: every place with `x ≥ 3/2` is blocked. -/
def wallTerrain : Terrain F where
  SampleHeight := fun _ _ => 0
  SamplePassable := fun x _ => decide ((3 : F) / 2 ≤ x)
  SampleSlope := fun _ _ => 0

/-- The resting agent at height 3, already falling with vertical velocity -4. -/
def fallingAgent : Agent F := { restingAgent (3 : F) with vertical_velocity_ := -4 }

/-- The resting agent at height 10 with a negative `fall_speed_`. -/
def negFallAgent : Agent F := { restingAgent (10 : F) with fall_speed_ := -1 }

/-! ## The specified `DownMove` -/

/-- The fall amount as the specification words it: `d = max(-vertical_velocity, 0) * dt`,
replaced by `fall_speed` when `d > fall_speed` and the agent is on the ground or not jumping. -/
def Agent.specFallAmount (a : Agent F) (dt : F) : F :=
  if max (-a.vertical_velocity_) 0 * dt > a.fall_speed_ ∧
      (a.on_ground_ = true ∨ a.jumping_ = false) then
    a.fall_speed_
  else
    max (-a.vertical_velocity_) 0 * dt

/-- The specified landing rule for a given fall amount `d`: lower `target_position` by
`step_offset + d` along the up axis, sample the terrain height `T` at the new x, z; below
`T + height` snap y to exactly `T + height`, commit, zero the vertical velocity and offset and
clear `jumping`; otherwise commit the lowered position and leave those three as they are. -/
def Agent.specLanding (terrain : Terrain F) (a : Agent F) (d : F) : Agent F :=
  if (a.target_position_ - a.up_ * (a.step_offset_ + d)).y <
      terrain.SampleHeight (a.target_position_ - a.up_ * (a.step_offset_ + d)).x
          (a.target_position_ - a.up_ * (a.step_offset_ + d)).z + a.height_ then
    { a with
      target_position_ :=
        ⟨(a.target_position_ - a.up_ * (a.step_offset_ + d)).x,
          terrain.SampleHeight (a.target_position_ - a.up_ * (a.step_offset_ + d)).x
              (a.target_position_ - a.up_ * (a.step_offset_ + d)).z + a.height_,
          (a.target_position_ - a.up_ * (a.step_offset_ + d)).z⟩
      transform := a.transform.SetPosition
        ⟨(a.target_position_ - a.up_ * (a.step_offset_ + d)).x,
          terrain.SampleHeight (a.target_position_ - a.up_ * (a.step_offset_ + d)).x
              (a.target_position_ - a.up_ * (a.step_offset_ + d)).z + a.height_,
          (a.target_position_ - a.up_ * (a.step_offset_ + d)).z⟩
      vertical_velocity_ := 0
      vertical_offset_ := 0
      jumping_ := false }
  else
    { a with
      target_position_ := a.target_position_ - a.up_ * (a.step_offset_ + d)
      transform := a.transform.SetPosition (a.target_position_ - a.up_ * (a.step_offset_ + d)) }

/-- The method `DownMove` as the specification defines it. -/
def Agent.DownMove_spec (terrain : Terrain F) (a : Agent F) (dt : F) : Agent F :=
  a.specLanding terrain (a.specFallAmount dt)

/-- A course of two beacons, at the origin (lit) and at `(100, 0, 0)`, with the player at
`(10, 0, 0)`, three lives, no enemies and no powerups. -/
def twoBeaconGame : Game F where
  player := { transform := { position := ⟨10, 0, 0⟩, orientation := ⟨0, 0, 0, 1⟩ },
              lives := 3, move_speed := 2 }
  beacons :=
    [{ transform := { position := ⟨0, 0, 0⟩, orientation := ⟨0, 0, 0, 1⟩ },
       inverted := true, active := true },
     { transform := { position := ⟨100, 0, 0⟩, orientation := ⟨0, 0, 0, 1⟩ },
       inverted := false, active := true }]
  enemies := []
  powerups := []
  active_beacon_index := 0
  background := ⟨0, 0, 0⟩
  console := []

/-! ## Definitions for the step-up, the external collision response and the collision loops -/

/-- The candidate `up_position_` of `Agent::UpMove` (agent.cpp line 15). -/
def Agent.upCandidate (a : Agent F) : Vec3 F :=
  a.transform.GetPosition + a.up_ * a.step_height_ +
    a.jump_axis_ * (if a.vertical_offset_ > 0 then a.vertical_offset_ else 0)

/-- The candidate of the step-up as the specification words it: the position plus `s` along the
up axis plus the positive part of the vertical offset along the jump axis, where the step-height
contribution `s` is `step_height` when the agent is rising and zero when it is falling
(`vertical_velocity < 0`). -/
def Agent.upCandidate_spec (a : Agent F) : Vec3 F :=
  a.transform.GetPosition + a.up_ * (if a.vertical_velocity_ < 0 then 0 else a.step_height_) +
    a.jump_axis_ * max a.vertical_offset_ 0

/-- The resting agent on the ground (y = 1), rising with vertical velocity 5, without damping. -/
def risingAgent : Agent F :=
  { restingAgent (1 : F) with vertical_velocity_ := 5, movement_damping_ := 0 }

/-- The resting agent at height 10, without damping, that still carries the step offset 1/2
recorded by an earlier update. -/
def staleStepAgent : Agent F :=
  { restingAgent (10 : F) with step_offset_ := 1 / 2, movement_damping_ := 0 }

/-- The resting agent standing at y = 1 whose previous frame position was y = 3. -/
def landedAgent : Agent F := { restingAgent (1 : F) with prev_position_ := ⟨0, 3, 0⟩ }

/-- The hit test of the enemy loop (game.cpp line 262) for a player at position `p`. -/
def enemyHit (L : Glm F) (p : Vec3 F) (e : SceneNode F) : Bool :=
  decide (length L (p - e.transform.position) < player_hitbox_g + enemy_hitbox_g) && e.active

/-- The hit test of the powerup loop (game.cpp line 275) for a player at position `p`. -/
def powerupHit (L : Glm F) (p : Vec3 F) (e : SceneNode F) : Bool :=
  decide (length L (p - e.transform.position) < player_hitbox_g + powerup_hitbox_g) && e.active

/-- The state of `Game::CheckCollisions` after a beacon hit, right before line 256: beacon
`active_beacon_index` (the node `b`) is no longer inverted, the index is incremented, and if it
reached `beacons.size()` the win is signalled (game.cpp lines 249-255). -/
def Game.beaconHit (g : Game F) (b : SceneNode F) : Game F :=
  let g1 := { g with beacons := g.beacons.set g.active_beacon_index { b with inverted := false } }
  let g2 := { g1 with active_beacon_index := g1.active_beacon_index + 1 }
  if g2.active_beacon_index = g2.beacons.length then
    { g2 with background := ⟨0, 1, 0⟩, console := g2.console ++ ["WINNER!"] }
  else
    g2

/-- A course with a single beacon at the origin, which is therefore the last one, with the
player at `(10, 0, 0)`. -/
def lastBeaconGame : Game F :=
  { (twoBeaconGame : Game F) with
    beacons :=
      [{ transform := { position := ⟨0, 0, 0⟩, orientation := ⟨0, 0, 0, 1⟩ },
         inverted := true, active := true }] }

/-- The two-beacon course with the second beacon active and the player at its place
`(100, 0, 0)`. -/
def secondBeaconGame : Game F :=
  { (twoBeaconGame : Game F) with
    player := { (twoBeaconGame : Game F).player with
      transform := { position := ⟨100, 0, 0⟩, orientation := ⟨0, 0, 0, 1⟩ } }
    active_beacon_index := 1 }

/-- The two-beacon course with three enemies (at the player, far away, and an inactive one at
the player) and one powerup at the player. -/
def skirmishGame : Game F :=
  { (twoBeaconGame : Game F) with
    enemies :=
      [{ transform := { position := ⟨10, 0, 0⟩, orientation := ⟨0, 0, 0, 1⟩ },
         inverted := false, active := true },
       { transform := { position := ⟨50, 0, 0⟩, orientation := ⟨0, 0, 0, 1⟩ },
         inverted := false, active := true },
       { transform := { position := ⟨10, 0, 0⟩, orientation := ⟨0, 0, 0, 1⟩ },
         inverted := false, active := false }]
    powerups :=
      [{ transform := { position := ⟨10, 0, 0⟩, orientation := ⟨0, 0, 0, 1⟩ },
         inverted := true, active := true }] }

/-- The beacon at the origin of the example courses, lit. -/
def originBeacon : SceneNode F :=
  { transform := { position := ⟨0, 0, 0⟩, orientation := ⟨0, 0, 0, 1⟩ },
    inverted := true, active := true }

/-- The second beacon of the two-beacon course, at `(100, 0, 0)`, not lit. -/
def farBeacon : SceneNode F :=
  { transform := { position := ⟨100, 0, 0⟩, orientation := ⟨0, 0, 0, 1⟩ },
    inverted := false, active := true }

/-- The effect of one enemy hit on the game state (game.cpp lines 263-264 and 266-269): one life
and `speed_upgrade_g` of speed less, and the lose signal if fewer than one life is left. -/
def Game.enemyStrike (g : Game F) : Game F :=
  let g1 := { g with player := { g.player with lives := g.player.lives - 1 } }
  let g2 :=
    { g1 with player := { g1.player with move_speed := g1.player.move_speed - speed_upgrade_g } }
  if g2.player.lives < 1 then
    { g2 with background := ⟨1, 0, 0⟩, console := g2.console ++ ["LOSER!"] }
  else
    g2

/-- The effect of one powerup hit on the game state (game.cpp lines 276-277). -/
def Game.powerupGain (g : Game F) : Game F :=
  let g1 := { g with player := { g.player with lives := g.player.lives + 1 } }
  { g1 with player := { g1.player with move_speed := g1.player.move_speed + speed_upgrade_g } }

end Model

/-! ## Component lemmas for vectors -/

theorem Vec3.ext_iff3 {F : Type} (a b : Vec3 F) :
    a = b ↔ a.x = b.x ∧ a.y = b.y ∧ a.z = b.z := by
  cases a
  cases b
  simp

section VectorLemmas

variable {F : Type} [LinearOrderedField F]

@[simp] theorem Vec3.add_x (a b : Vec3 F) : (a + b).x = a.x + b.x := rfl
@[simp] theorem Vec3.add_y (a b : Vec3 F) : (a + b).y = a.y + b.y := rfl
@[simp] theorem Vec3.add_z (a b : Vec3 F) : (a + b).z = a.z + b.z := rfl
@[simp] theorem Vec3.sub_x (a b : Vec3 F) : (a - b).x = a.x - b.x := rfl
@[simp] theorem Vec3.sub_y (a b : Vec3 F) : (a - b).y = a.y - b.y := rfl
@[simp] theorem Vec3.sub_z (a b : Vec3 F) : (a - b).z = a.z - b.z := rfl
@[simp] theorem Vec3.mul_x (a : Vec3 F) (s : F) : (a * s).x = a.x * s := rfl
@[simp] theorem Vec3.mul_y (a : Vec3 F) (s : F) : (a * s).y = a.y * s := rfl
@[simp] theorem Vec3.mul_z (a : Vec3 F) (s : F) : (a * s).z = a.z * s := rfl

end VectorLemmas

/-! ## Stage lemmas -/

section StageLemmas

variable {F : Type} [LinearOrderedField F]

theorem dampingStep_fall_speed (L : Glm F) (a : Agent F) (dt : F) :
    (a.dampingStep L dt).fall_speed_ = a.fall_speed_ := by
  unfold Agent.dampingStep
  split_ifs <;> rfl

theorem dampingStep_jump_speed (L : Glm F) (a : Agent F) (dt : F) :
    (a.dampingStep L dt).jump_speed_ = a.jump_speed_ := by
  unfold Agent.dampingStep
  split_ifs <;> rfl

/-- The scalar computed by the gravity step: integrate, clamp above by the jump speed, clamp
below by the fall speed. -/
theorem gravityStep_vertical_velocity (a : Agent F) (dt : F) :
    (a.gravityStep dt).vertical_velocity_ =
      (if (if a.vertical_velocity_ - a.gravity_ * dt > 0 ∧
              a.vertical_velocity_ - a.gravity_ * dt > a.jump_speed_ then a.jump_speed_
            else a.vertical_velocity_ - a.gravity_ * dt) < 0 ∧
          |(if a.vertical_velocity_ - a.gravity_ * dt > 0 ∧
              a.vertical_velocity_ - a.gravity_ * dt > a.jump_speed_ then a.jump_speed_
            else a.vertical_velocity_ - a.gravity_ * dt)| > |a.fall_speed_| then -|a.fall_speed_|
        else (if a.vertical_velocity_ - a.gravity_ * dt > 0 ∧
              a.vertical_velocity_ - a.gravity_ * dt > a.jump_speed_ then a.jump_speed_
            else a.vertical_velocity_ - a.gravity_ * dt)) := by
  unfold Agent.gravityStep
  dsimp only
  split_ifs <;> rfl

theorem gravityStep_bounds (a : Agent F) (dt : F) (hjs : 0 ≤ a.jump_speed_) :
    -|a.fall_speed_| ≤ (a.gravityStep dt).vertical_velocity_ ∧
      (a.gravityStep dt).vertical_velocity_ ≤ a.jump_speed_ := by
  have habs : 0 ≤ |a.fall_speed_| := abs_nonneg _
  rw [gravityStep_vertical_velocity]
  generalize a.vertical_velocity_ - a.gravity_ * dt = w
  split_ifs with h1 h2 h2
  · exact ⟨le_refl _, by linarith⟩
  · exact ⟨by linarith, le_refl _⟩
  · exact ⟨le_refl _, by linarith⟩
  · push_neg at h1 h2
    constructor
    · by_cases hneg : w < 0
      · have := h2 hneg
        rw [abs_of_neg hneg] at this
        linarith
      · push_neg at hneg
        linarith
    · by_cases hpos : 0 < w
      · exact h1 hpos
      · push_neg at hpos
        linarith

theorem Vec3.add_eq_self_iff (t s : Vec3 F) : t + s = t ↔ s = Vec3.zero := by
  simp [Vec3.ext_iff3, Vec3.zero]

/-- The two outcomes of `WalkingMove` once the move is long enough and its candidate is free. -/
theorem WalkingMove_free (L : Glm F) (terrain : Terrain F) (a : Agent F) (move : Vec3 F) (dt : F)
    (hlen : length L move > 1 / 1000)
    (hfree : terrain.SamplePassable (a.walkCandidate L move).x (a.walkCandidate L move).z = false) :
    a.WalkingMove L terrain move dt =
      if terrain.SampleSlope (a.walkCandidate L move).x (a.walkCandidate L move).z < 1 / 2 ∨
          a.target_position_.y >
            terrain.SampleHeight (a.walkCandidate L move).x (a.walkCandidate L move).z +
              a.height_ * 4 then
        { a with
          target_position_ := a.target_position_ + a.walkForward L move * a.speed_ * dt * (100 : F)
          transform := a.transform.SetPosition
            (a.target_position_ + a.walkForward L move * a.speed_ * dt * (100 : F)) }
      else a := by
  unfold Agent.WalkingMove
  simp only [hlen, hfree, if_true, Bool.false_eq_true, if_false]

/-- A blocked candidate, or a move that is too short, leaves the agent as it is. -/
theorem WalkingMove_blocked (L : Glm F) (terrain : Terrain F) (a : Agent F) (move : Vec3 F)
    (dt : F)
    (hblocked :
      terrain.SamplePassable (a.walkCandidate L move).x (a.walkCandidate L move).z = true) :
    a.WalkingMove L terrain move dt = a := by
  unfold Agent.WalkingMove
  simp only [hblocked, if_true, ite_self]

theorem neg_part_eq_max (v : F) : (if v < 0 then -v else 0) = max (-v) 0 := by
  split_ifs with h
  · exact (max_eq_left (by linarith)).symm
  · exact (max_eq_right (by linarith)).symm

/-- The method `DownMove` is the specified landing rule applied to the fall amount the code
computes. -/
theorem DownMove_eq_specLanding (terrain : Terrain F) (a : Agent F) (dt : F) :
    a.DownMove terrain dt =
      a.specLanding terrain
        (if 0 < max (-a.vertical_velocity_) 0 * dt ∧
            max (-a.vertical_velocity_) 0 * dt > a.fall_speed_ ∧
            (a.on_ground_ = true ∨ a.jumping_ = false) then a.fall_speed_
          else max (-a.vertical_velocity_) 0 * dt) := by
  unfold Agent.DownMove Agent.specLanding
  simp only [neg_part_eq_max, gt_iff_lt, Bool.not_eq_true]

theorem enemyLoop_beacons (L : Glm F) (es : List (SceneNode F)) (g : Game F) :
    (Game.enemyLoop L g es).1.beacons = g.beacons ∧
      (Game.enemyLoop L g es).1.active_beacon_index = g.active_beacon_index := by
  induction es generalizing g with
  | nil => exact ⟨rfl, rfl⟩
  | cons e rest ih =>
    unfold Game.enemyLoop
    dsimp only
    split_ifs
    · exact ih _
    · exact ih _
    · exact ih _

theorem powerupLoop_beacons (L : Glm F) (ps : List (SceneNode F)) (g : Game F) :
    (Game.powerupLoop L g ps).1.beacons = g.beacons ∧
      (Game.powerupLoop L g ps).1.active_beacon_index = g.active_beacon_index := by
  induction ps generalizing g with
  | nil => exact ⟨rfl, rfl⟩
  | cons e rest ih =>
    unfold Game.powerupLoop
    dsimp only
    split_ifs
    · exact ih _
    · exact ih _

/-- The enemy and powerup loops leave the beacons and the active index as the beacon check
left them. -/
theorem CheckCollisions_beacons (L : Glm F) (g g1 : Game F) (h : g.checkBeacons L = some g1) :
    ∃ g2, g.CheckCollisions L = some g2 ∧ g2.beacons = g1.beacons ∧
      g2.active_beacon_index = g1.active_beacon_index := by
  unfold Game.CheckCollisions
  rw [h]
  refine ⟨_, rfl, ?_, ?_⟩
  · show (Game.powerupLoop L _ _).1.beacons = _
    rw [(powerupLoop_beacons L _ _).1]
    exact (enemyLoop_beacons L _ _).1
  · show (Game.powerupLoop L _ _).1.active_beacon_index = _
    rw [(powerupLoop_beacons L _ _).2]
    exact (enemyLoop_beacons L _ _).2

/-- The beacon check for an active index that is not the last one. -/
theorem checkBeacons_not_last (L : Glm F) (g : Game F)
    (hidx : g.active_beacon_index + 1 < g.beacons.length) :
    ∃ g1, g.checkBeacons L = some g1 ∧
      (if length L (g.player.transform.position -
            (g.beacons.get ⟨g.active_beacon_index, Nat.lt_of_succ_lt hidx⟩).transform.position) <
          player_hitbox_g + beacon_hitbox_g then
        g1.active_beacon_index = g.active_beacon_index + 1 ∧
          (g1.beacons[g.active_beacon_index]?).map (fun n => n.inverted) = some false ∧
          (g1.beacons[g.active_beacon_index + 1]?).map (fun n => n.inverted) = some true
      else
        g1.active_beacon_index = g.active_beacon_index ∧ g1.beacons = g.beacons) := by
  have hi : g.active_beacon_index < g.beacons.length := Nat.lt_of_succ_lt hidx
  have hb : g.beacons[g.active_beacon_index]? =
      some (g.beacons.get ⟨g.active_beacon_index, hi⟩) := by
    rw [List.get_eq_getElem]
    exact List.getElem?_eq_getElem hi
  unfold Game.checkBeacons
  rw [hb]
  dsimp only
  by_cases hd : length L (g.player.transform.position -
      (g.beacons.get ⟨g.active_beacon_index, hi⟩).transform.position) <
        player_hitbox_g + beacon_hitbox_g
  · rw [if_pos hd]
    have hne : ¬ (g.active_beacon_index + 1 = (g.beacons.set g.active_beacon_index
        { g.beacons.get ⟨g.active_beacon_index, hi⟩ with inverted := false }).length) := by
      rw [List.length_set]
      omega
    rw [if_neg hne]
    have hnext : (g.beacons.set g.active_beacon_index
        { g.beacons.get ⟨g.active_beacon_index, hi⟩ with inverted := false })[
          g.active_beacon_index + 1]? = some (g.beacons.get ⟨g.active_beacon_index + 1, hidx⟩) := by
      rw [List.getElem?_set_ne (by omega), List.get_eq_getElem]
      exact List.getElem?_eq_getElem hidx
    dsimp only
    rw [hnext]
    refine ⟨_, rfl, ?_⟩
    rw [if_pos hd]
    refine ⟨rfl, ?_, ?_⟩
    · dsimp only
      rw [List.getElem?_set_ne (by omega), List.getElem?_set_self hi]
      rfl
    · dsimp only
      rw [List.getElem?_set_self (by rw [List.length_set]; exact hidx)]
      rfl
  · rw [if_neg hd]
    refine ⟨g, rfl, ?_⟩
    rw [if_neg hd]
    exact ⟨rfl, rfl⟩

theorem dampingStep_movement_damping (L : Glm F) (a : Agent F) (dt : F) :
    (a.dampingStep L dt).movement_damping_ = a.movement_damping_ := by
  unfold Agent.dampingStep
  split_ifs <;> rfl

theorem dampingStep_vertical_velocity (L : Glm F) (a : Agent F) (dt : F) :
    (a.dampingStep L dt).vertical_velocity_ =
      a.vertical_velocity_ * L.pow (1 - a.movement_damping_) dt := by
  unfold Agent.dampingStep
  split_ifs <;> rfl

theorem dampingStep_walk_direction (L : Glm F) (a : Agent F) (dt : F) :
    (a.dampingStep L dt).walk_direction_ =
      if length L a.walk_direction_ > 0 then
        a.walk_direction_ * L.pow (1 - a.movement_damping_) dt
      else a.walk_direction_ := by
  unfold Agent.dampingStep
  split_ifs <;> rfl

/-- Repeating the damping step `n` times multiplies the vertical velocity by the `n`-th power
of the damping factor. -/
theorem dampingStep_iterate (L : Glm F) (a : Agent F) (dt : F) (n : ℕ) :
    ((fun s : Agent F => s.dampingStep L dt)^[n] a).movement_damping_ = a.movement_damping_ ∧
      ((fun s : Agent F => s.dampingStep L dt)^[n] a).vertical_velocity_ =
        a.vertical_velocity_ * L.pow (1 - a.movement_damping_) dt ^ n := by
  induction n with
  | zero => simp
  | succ k ih =>
    rw [Function.iterate_succ_apply']
    rw [dampingStep_movement_damping, dampingStep_vertical_velocity, ih.1, ih.2]
    exact ⟨rfl, by ring⟩

theorem UpMove_free (terrain : Terrain F) (a : Agent F) (dt : F)
    (hfree : ∀ x z, terrain.SamplePassable x z = false) :
    a.UpMove terrain dt =
      { a with
        target_position_ := a.transform.GetPosition + a.up_ * a.step_height_ +
          a.jump_axis_ * (if a.vertical_offset_ > 0 then a.vertical_offset_ else 0)
        transform := a.transform.SetPosition (a.transform.GetPosition + a.up_ * a.step_height_ +
          a.jump_axis_ * (if a.vertical_offset_ > 0 then a.vertical_offset_ else 0))
        step_offset_ := if a.vertical_velocity_ < 0 then a.step_height_ else 0 } := by
  unfold Agent.UpMove
  simp only [hfree, Bool.false_eq_true, if_false]

theorem walkDirectionStep_idle (L : Glm F) (a : Agent F)
    (hsl : a.strafe_left_ = Vec3.zero) (hsr : a.strafe_right_ = Vec3.zero)
    (hfw : a.forward_ = Vec3.zero) (hbw : a.backward_ = Vec3.zero) :
    a.walkDirectionStep L = { a with walk_direction_ := Vec3.zero } := by
  unfold Agent.walkDirectionStep
  have hsum : a.strafe_left_ + a.strafe_right_ + a.forward_ + a.backward_ = Vec3.zero := by
    rw [hsl, hsr, hfw, hbw]
    simp [Vec3.ext_iff3, Vec3.zero]
  simp only [hsum, ne_eq, not_true_eq_false, if_false]

theorem WalkingMove_idle (L : Glm F) (terrain : Terrain F) (a : Agent F) (dt : F)
    (hsqrt : L.sqrt 0 = 0) : a.WalkingMove L terrain Vec3.zero dt = a := by
  unfold Agent.WalkingMove
  have hlen : ¬ (length L (Vec3.zero : Vec3 F) > 1 / 1000) := by
    have : length L (Vec3.zero : Vec3 F) = 0 := by
      simp [length, dot, Vec3.zero, hsqrt]
    rw [this]
    norm_num
  rw [if_neg hlen]

theorem dampingStep_frame (L : Glm F) (a : Agent F) (dt : F) :
    (a.dampingStep L dt).tunables = a.tunables ∧
      (a.dampingStep L dt).transform = a.transform ∧
      (a.dampingStep L dt).jump_axis_ = a.jump_axis_ ∧
      (a.dampingStep L dt).jumping_ = a.jumping_ := by
  unfold Agent.dampingStep
  split_ifs <;> exact ⟨rfl, rfl, rfl, rfl⟩

theorem gravityStep_frame (a : Agent F) (dt : F) :
    (a.gravityStep dt).tunables = a.tunables ∧
      (a.gravityStep dt).transform = a.transform ∧
      (a.gravityStep dt).jump_axis_ = a.jump_axis_ ∧
      (a.gravityStep dt).jumping_ = a.jumping_ := by
  unfold Agent.gravityStep
  dsimp only
  split_ifs <;> exact ⟨rfl, rfl, rfl, rfl⟩

theorem UpMove_free_frame (terrain : Terrain F) (a : Agent F) (dt : F)
    (hfree : ∀ x z, terrain.SamplePassable x z = false) :
    (a.UpMove terrain dt).tunables = a.tunables ∧
      (a.UpMove terrain dt).jumping_ = a.jumping_ ∧
      (a.UpMove terrain dt).vertical_velocity_ = a.vertical_velocity_ ∧
      (a.UpMove terrain dt).vertical_offset_ = a.vertical_offset_ ∧
      (a.UpMove terrain dt).target_position_ =
        a.transform.GetPosition + a.up_ * a.step_height_ +
          a.jump_axis_ * (if a.vertical_offset_ > 0 then a.vertical_offset_ else 0) ∧
      (a.UpMove terrain dt).step_offset_ =
        (if a.vertical_velocity_ < 0 then a.step_height_ else 0) := by
  rw [UpMove_free terrain a dt hfree]
  exact ⟨rfl, rfl, rfl, rfl, rfl, rfl⟩

theorem walkDirectionStep_idle_frame (L : Glm F) (a : Agent F)
    (hsl : a.strafe_left_ = Vec3.zero) (hsr : a.strafe_right_ = Vec3.zero)
    (hfw : a.forward_ = Vec3.zero) (hbw : a.backward_ = Vec3.zero) :
    (a.walkDirectionStep L).walk_direction_ = Vec3.zero ∧
      (a.walkDirectionStep L).tunables = a.tunables ∧
      (a.walkDirectionStep L).jumping_ = a.jumping_ ∧
      (a.walkDirectionStep L).vertical_velocity_ = a.vertical_velocity_ ∧
      (a.walkDirectionStep L).vertical_offset_ = a.vertical_offset_ ∧
      (a.walkDirectionStep L).target_position_ = a.target_position_ ∧
      (a.walkDirectionStep L).step_offset_ = a.step_offset_ := by
  rw [walkDirectionStep_idle L a hsl hsr hfw hbw]
  exact ⟨rfl, rfl, rfl, rfl, rfl, rfl, rfl⟩

/-- `Agent::Update` as the composition of its stages. -/
theorem Update_stages (L : Glm F) (EPSILON : F) (terrain : Terrain F) (a : Agent F) (dt : F) :
    a.Update L EPSILON terrain dt =
      Agent.DownMove terrain
        (Agent.WalkingMove L terrain
          (Agent.walkDirectionStep L
            (Agent.UpMove terrain
              { Agent.gravityStep
                  (Agent.dampingStep L
                    { a with
                      prev_position_ := a.transform.GetPosition
                      on_ground_ := a.OnGround EPSILON } dt) dt with
                vertical_offset_ :=
                  (Agent.gravityStep
                    (Agent.dampingStep L
                      { a with
                        prev_position_ := a.transform.GetPosition
                        on_ground_ := a.OnGround EPSILON } dt) dt).vertical_velocity_ * dt } dt))
          (Agent.walkDirectionStep L
            (Agent.UpMove terrain
              { Agent.gravityStep
                  (Agent.dampingStep L
                    { a with
                      prev_position_ := a.transform.GetPosition
                      on_ground_ := a.OnGround EPSILON } dt) dt with
                vertical_offset_ :=
                  (Agent.gravityStep
                    (Agent.dampingStep L
                      { a with
                        prev_position_ := a.transform.GetPosition
                        on_ground_ := a.OnGround EPSILON } dt) dt).vertical_velocity_ * dt }
              dt)).walk_direction_ dt) dt := rfl

theorem specLanding_frame (terrain : Terrain F) (a : Agent F) (d : F) :
    (a.specLanding terrain d).tunables = a.tunables := by
  unfold Agent.specLanding
  split_ifs <;> rfl

/-- The velocity after damping and gravity, in terms of the fields of the agent. -/
theorem velocity_after_gravity (L : Glm F) (a : Agent F) (dt : F) :
    ((a.dampingStep L dt).gravityStep dt).vertical_velocity_ =
      (if (if a.vertical_velocity_ * L.pow (1 - a.movement_damping_) dt - a.gravity_ * dt > 0 ∧
              a.vertical_velocity_ * L.pow (1 - a.movement_damping_) dt - a.gravity_ * dt >
                a.jump_speed_ then a.jump_speed_
            else a.vertical_velocity_ * L.pow (1 - a.movement_damping_) dt - a.gravity_ * dt) < 0 ∧
          |(if a.vertical_velocity_ * L.pow (1 - a.movement_damping_) dt - a.gravity_ * dt > 0 ∧
              a.vertical_velocity_ * L.pow (1 - a.movement_damping_) dt - a.gravity_ * dt >
                a.jump_speed_ then a.jump_speed_
            else a.vertical_velocity_ * L.pow (1 - a.movement_damping_) dt - a.gravity_ * dt)| >
            |a.fall_speed_| then -|a.fall_speed_|
        else (if a.vertical_velocity_ * L.pow (1 - a.movement_damping_) dt - a.gravity_ * dt > 0 ∧
              a.vertical_velocity_ * L.pow (1 - a.movement_damping_) dt - a.gravity_ * dt >
                a.jump_speed_ then a.jump_speed_
            else a.vertical_velocity_ * L.pow (1 - a.movement_damping_) dt - a.gravity_ * dt)) := by
  have ht := (dampingStep_frame L a dt).1
  simp only [Agent.tunables, Prod.mk.injEq] at ht
  obtain ⟨-, -, -, -, -, -, -, -, hfs, hjs, -, hg, -⟩ := ht
  rw [gravityStep_vertical_velocity, dampingStep_vertical_velocity, hfs, hjs, hg]

/-- One `Agent::Update` of an agent without directional input on free flat ground, while the
velocity after the gravity step is negative: the agent drops by the fall amount `d`, and lands
exactly on `H + height` with zero vertical velocity and offset if that would take it below. -/
theorem Update_flat_step (L : Glm F) (EPSILON : F) (terrain : Terrain F) (a : Agent F) (dt H : F)
    (hsqrt : L.sqrt 0 = 0)
    (hflat : ∀ x z, terrain.SampleHeight x z = H)
    (hfree : ∀ x z, terrain.SamplePassable x z = false)
    (hup : a.up_ = ⟨0, 1, 0⟩)
    (hsl : a.strafe_left_ = Vec3.zero) (hsr : a.strafe_right_ = Vec3.zero)
    (hfw : a.forward_ = Vec3.zero) (hbw : a.backward_ = Vec3.zero)
    (hj : a.jumping_ = false)
    (hdt : 0 < dt)
    (hW : ((a.dampingStep L dt).gravityStep dt).vertical_velocity_ < 0) :
    (a.Update L EPSILON terrain dt).tunables = a.tunables ∧
      (a.Update L EPSILON terrain dt).jumping_ = false ∧
      (if a.transform.position.y -
            (if -((a.dampingStep L dt).gravityStep dt).vertical_velocity_ * dt > a.fall_speed_
              then a.fall_speed_
              else -((a.dampingStep L dt).gravityStep dt).vertical_velocity_ * dt) <
          H + a.height_ then
        (a.Update L EPSILON terrain dt).transform.position.y = H + a.height_ ∧
          (a.Update L EPSILON terrain dt).vertical_velocity_ = 0 ∧
          (a.Update L EPSILON terrain dt).vertical_offset_ = 0
      else
        (a.Update L EPSILON terrain dt).transform.position.y =
            a.transform.position.y -
              (if -((a.dampingStep L dt).gravityStep dt).vertical_velocity_ * dt > a.fall_speed_
                then a.fall_speed_
                else -((a.dampingStep L dt).gravityStep dt).vertical_velocity_ * dt) ∧
          (a.Update L EPSILON terrain dt).vertical_velocity_ =
            ((a.dampingStep L dt).gravityStep dt).vertical_velocity_) := by
  rw [Update_stages]
  -- the integration stages
  have V4 : (Agent.gravityStep (Agent.dampingStep L
      { a with prev_position_ := a.transform.GetPosition, on_ground_ := a.OnGround EPSILON } dt)
        dt).vertical_velocity_ = ((a.dampingStep L dt).gravityStep dt).vertical_velocity_ := by
    rw [velocity_after_gravity, velocity_after_gravity]
  obtain ⟨t3, tr3, ja3, j3⟩ := dampingStep_frame L
    { a with prev_position_ := a.transform.GetPosition, on_ground_ := a.OnGround EPSILON } dt
  obtain ⟨t4, tr4, ja4, j4⟩ := gravityStep_frame (Agent.dampingStep L
    { a with prev_position_ := a.transform.GetPosition, on_ground_ := a.OnGround EPSILON } dt) dt
  have T4 := t4.trans t3
  have TR4 := tr4.trans tr3
  have JA4 := ja4.trans ja3
  have J4 := j4.trans j3
  clear t3 tr3 ja3 j3 t4 tr4 ja4 j4
  generalize ((a.dampingStep L dt).gravityStep dt).vertical_velocity_ = W at *
  generalize Agent.gravityStep (Agent.dampingStep L
    { a with prev_position_ := a.transform.GetPosition, on_ground_ := a.OnGround EPSILON } dt)
      dt = a4 at *
  change a4.tunables = a.tunables at T4
  change a4.transform = a.transform at TR4
  change a4.jump_axis_ = a.jump_axis_ at JA4
  change a4.jumping_ = a.jumping_ at J4
  have hT4 := T4
  simp only [Agent.tunables, Prod.mk.injEq] at hT4
  obtain ⟨-, -, -, -, hT4up, -, -, hT4sh, -, -, -, -, -⟩ := hT4
  -- the step up
  obtain ⟨t6, j6, v6, o6, p6, s6⟩ := UpMove_free_frame terrain
    { a4 with vertical_offset_ := a4.vertical_velocity_ * dt } dt hfree
  generalize Agent.UpMove terrain { a4 with vertical_offset_ := a4.vertical_velocity_ * dt } dt
    = a6 at *
  dsimp only at t6 j6 v6 o6 p6 s6
  have T6 : a6.tunables = a.tunables := t6.trans T4
  have hT6 := T6
  simp only [Agent.tunables, Prod.mk.injEq] at hT6
  obtain ⟨hsl6, hsr6, hfw6, hbw6, hup6, -, hh6, hsh6, hfs6, -, -, -, -⟩ := hT6
  -- the walk
  obtain ⟨w7, t7, j7, v7, o7, p7, s7⟩ := walkDirectionStep_idle_frame L a6
    (hsl6.trans hsl) (hsr6.trans hsr) (hfw6.trans hfw) (hbw6.trans hbw)
  generalize Agent.walkDirectionStep L a6 = a7 at *
  rw [w7, WalkingMove_idle L terrain a7 dt hsqrt]
  -- the drop
  rw [DownMove_eq_specLanding]
  have V7 : a7.vertical_velocity_ = W := (v7.trans v6).trans V4
  have J7 : a7.jumping_ = false := ((j7.trans j6).trans J4).trans hj
  have hT7 := t7.trans T6
  simp only [Agent.tunables, Prod.mk.injEq] at hT7
  obtain ⟨-, -, -, -, hup7, -, hh7, -, hfs7, -, -, -, -⟩ := hT7
  have hd : (if 0 < max (-a7.vertical_velocity_) 0 * dt ∧
      max (-a7.vertical_velocity_) 0 * dt > a7.fall_speed_ ∧
        (a7.on_ground_ = true ∨ a7.jumping_ = false) then a7.fall_speed_
      else max (-a7.vertical_velocity_) 0 * dt) =
      (if -W * dt > a.fall_speed_ then a.fall_speed_ else -W * dt) := by
    have hmax : max (-W) 0 = -W := max_eq_left (by linarith)
    have hpos : 0 < -W * dt := mul_pos (by linarith) hdt
    rw [V7, hmax, hfs7]
    simp only [hpos, J7, or_true, and_true, true_and]
  rw [hd]
  generalize (if -W * dt > a.fall_speed_ then a.fall_speed_ else -W * dt) = d
  have hy : (a7.target_position_ - a7.up_ * (a7.step_offset_ + d)).y =
      a.transform.position.y - d := by
    rw [p7, p6, s7, s6, hup7, hup, V4, if_pos hW, if_neg (by
      have : W * dt < 0 := mul_neg_of_neg_of_pos hW hdt
      exact not_lt.mpr this.le), hT4up, hT4sh, TR4, hup]
    simp only [Transform.GetPosition, Vec3.sub_y, Vec3.add_y, Vec3.mul_y]
    ring
  refine ⟨(specLanding_frame terrain a7 d).trans (t7.trans T6), ?_, ?_⟩
  · unfold Agent.specLanding
    split_ifs
    · rfl
    · exact J7
  · unfold Agent.specLanding
    rw [hy, hflat, hh7]
    split_ifs with hc
    · exact ⟨rfl, rfl, rfl⟩
    · exact ⟨hy, V7⟩

/-- While the damped velocity is not positive, the velocity after the gravity step is negative
and at least `min (gravity * dt) fall_speed` in magnitude. -/
theorem velocity_after_gravity_neg (L : Glm F) (a : Agent F) (dt : F) (hdt : 0 < dt)
    (hg : 0 < a.gravity_) (hfs : 0 < a.fall_speed_)
    (hvq : a.vertical_velocity_ * L.pow (1 - a.movement_damping_) dt ≤ 0) :
    ((a.dampingStep L dt).gravityStep dt).vertical_velocity_ < 0 ∧
      min (a.gravity_ * dt) a.fall_speed_ ≤
        -((a.dampingStep L dt).gravityStep dt).vertical_velocity_ := by
  rw [velocity_after_gravity]
  have hgd : 0 < a.gravity_ * dt := mul_pos hg hdt
  generalize a.vertical_velocity_ * L.pow (1 - a.movement_damping_) dt = u at *
  have hw : u - a.gravity_ * dt < 0 := by linarith
  have h1 : ¬ (u - a.gravity_ * dt > 0 ∧ u - a.gravity_ * dt > a.jump_speed_) :=
    fun h => absurd h.1 (not_lt.mpr hw.le)
  rw [if_neg h1, abs_of_pos hfs]
  split_ifs with h2
  · exact ⟨by linarith, by rw [neg_neg]; exact min_le_right _ _⟩
  · exact ⟨hw, le_trans (min_le_left _ _) (by linarith)⟩

/-- One `Agent::Update` of a falling or resting agent without directional input on free flat
ground: it drops by some `d` that is at least `min (min (gravity*dt) fall_speed * dt) fall_speed`
and lands exactly on `H + height`, at rest, if the drop would take it below. -/
theorem Update_flat_fall (L : Glm F) (EPSILON : F) (terrain : Terrain F) (a : Agent F) (dt H : F)
    (hsqrt : L.sqrt 0 = 0)
    (hflat : ∀ x z, terrain.SampleHeight x z = H)
    (hfree : ∀ x z, terrain.SamplePassable x z = false)
    (hup : a.up_ = ⟨0, 1, 0⟩)
    (hsl : a.strafe_left_ = Vec3.zero) (hsr : a.strafe_right_ = Vec3.zero)
    (hfw : a.forward_ = Vec3.zero) (hbw : a.backward_ = Vec3.zero)
    (hj : a.jumping_ = false) (hdt : 0 < dt)
    (hg : 0 < a.gravity_) (hfs : 0 < a.fall_speed_)
    (hvq : a.vertical_velocity_ * L.pow (1 - a.movement_damping_) dt ≤ 0) :
    ∃ d, min (min (a.gravity_ * dt) a.fall_speed_ * dt) a.fall_speed_ ≤ d ∧
      (a.Update L EPSILON terrain dt).tunables = a.tunables ∧
      (a.Update L EPSILON terrain dt).jumping_ = false ∧
      (a.Update L EPSILON terrain dt).vertical_velocity_ ≤ 0 ∧
      (a.transform.position.y - d < H + a.height_ →
        (a.Update L EPSILON terrain dt).transform.position.y = H + a.height_ ∧
          (a.Update L EPSILON terrain dt).vertical_velocity_ = 0 ∧
          (a.Update L EPSILON terrain dt).vertical_offset_ = 0) ∧
      (¬ (a.transform.position.y - d < H + a.height_) →
        (a.Update L EPSILON terrain dt).transform.position.y = a.transform.position.y - d) := by
  obtain ⟨hW, hWmin⟩ := velocity_after_gravity_neg L a dt hdt hg hfs hvq
  obtain ⟨ht, hjump, hstep⟩ := Update_flat_step L EPSILON terrain a dt H hsqrt hflat hfree hup
    hsl hsr hfw hbw hj hdt hW
  generalize ((a.dampingStep L dt).gravityStep dt).vertical_velocity_ = W at *
  have hdmin : min (min (a.gravity_ * dt) a.fall_speed_ * dt) a.fall_speed_ ≤
      (if -W * dt > a.fall_speed_ then a.fall_speed_ else -W * dt) := by
    split_ifs with hc
    · exact min_le_right _ _
    · exact le_trans (min_le_left _ _) (mul_le_mul_of_nonneg_right hWmin hdt.le)
  refine ⟨_, hdmin, ht, hjump, ?_, ?_, ?_⟩
  · by_cases hc : a.transform.position.y -
        (if -W * dt > a.fall_speed_ then a.fall_speed_ else -W * dt) < H + a.height_
    · rw [if_pos hc] at hstep
      rw [hstep.2.1]
    · rw [if_neg hc] at hstep
      rw [hstep.2]
      exact hW.le
  · intro hc
    rw [if_pos hc] at hstep
    exact hstep
  · intro hc
    rw [if_neg hc] at hstep
    exact hstep.1

/-- The forward vector of the resting agent for the move `(1, 0, 0)` is `(1, 0, 0)`. -/
theorem restingAgent_walkForward (y : ℝ) :
    (restingAgent y).walkForward realGlm ⟨1, 0, 0⟩ = ⟨1, 0, 0⟩ := by
  simp [Agent.walkForward, normalize, Quat.rotate, cross, dot, realGlm, restingAgent,
    Transform.GetOrientation, Vec3.ext_iff3]

/-- `UpMove` in terms of its candidate. -/
theorem UpMove_eq (terrain : Terrain F) (a : Agent F) (dt : F) :
    a.UpMove terrain dt =
      if terrain.SamplePassable a.upCandidate.x a.upCandidate.z then a
      else
        { a with
          target_position_ := a.upCandidate
          transform := a.transform.SetPosition a.upCandidate
          step_offset_ := if a.vertical_velocity_ < 0 then a.step_height_ else 0 } := rfl

/-- After `DownMove` the transform position is `target_position` and the agent is not below the
terrain height at its planar coordinates plus its body height. -/
theorem DownMove_floor (terrain : Terrain F) (a : Agent F) (dt : F) :
    (a.DownMove terrain dt).transform.GetPosition = (a.DownMove terrain dt).target_position_ ∧
      (a.DownMove terrain dt).target_position_.y ≥
        terrain.SampleHeight (a.DownMove terrain dt).target_position_.x
            (a.DownMove terrain dt).target_position_.z +
          (a.DownMove terrain dt).height_ := by
  rw [DownMove_eq_specLanding]
  generalize (if 0 < max (-a.vertical_velocity_) 0 * dt ∧
      max (-a.vertical_velocity_) 0 * dt > a.fall_speed_ ∧
        (a.on_ground_ = true ∨ a.jumping_ = false) then a.fall_speed_
      else max (-a.vertical_velocity_) 0 * dt) = d
  unfold Agent.specLanding
  split_ifs with h
  · exact ⟨rfl, le_refl _⟩
  · exact ⟨rfl, not_lt.mp h⟩

theorem dampingStep_target (L : Glm F) (a : Agent F) (dt : F) :
    (a.dampingStep L dt).target_position_ = a.target_position_ ∧
      (a.dampingStep L dt).step_offset_ = a.step_offset_ := by
  unfold Agent.dampingStep
  split_ifs <;> exact ⟨rfl, rfl⟩

theorem gravityStep_target (a : Agent F) (dt : F) :
    (a.gravityStep dt).target_position_ = a.target_position_ ∧
      (a.gravityStep dt).step_offset_ = a.step_offset_ := by
  unfold Agent.gravityStep
  dsimp only
  split_ifs <;> exact ⟨rfl, rfl⟩

/-- What `UpMove` leaves alone, and its two outcomes. -/
theorem UpMove_frame (terrain : Terrain F) (a : Agent F) (dt : F) :
    (a.UpMove terrain dt).tunables = a.tunables ∧
      (a.UpMove terrain dt).jumping_ = a.jumping_ ∧
      (a.UpMove terrain dt).vertical_velocity_ = a.vertical_velocity_ ∧
      (a.UpMove terrain dt).vertical_offset_ = a.vertical_offset_ ∧
      (if terrain.SamplePassable a.upCandidate.x a.upCandidate.z then
        (a.UpMove terrain dt).target_position_ = a.target_position_ ∧
          (a.UpMove terrain dt).step_offset_ = a.step_offset_
      else
        (a.UpMove terrain dt).target_position_ = a.upCandidate ∧
          (a.UpMove terrain dt).step_offset_ =
            (if a.vertical_velocity_ < 0 then a.step_height_ else 0)) := by
  rw [UpMove_eq]
  by_cases h : terrain.SamplePassable a.upCandidate.x a.upCandidate.z = true
  · rw [if_pos h, if_pos h]
    exact ⟨rfl, rfl, rfl, rfl, rfl, rfl⟩
  · rw [if_neg h, if_neg h]
    exact ⟨rfl, rfl, rfl, rfl, rfl, rfl⟩

/-- One `Agent::Update` without directional input, up to the call of `DownMove`: the agent that
`DownMove` receives. -/
theorem Update_idle (L : Glm F) (EPSILON : F) (terrain : Terrain F) (a : Agent F) (dt : F)
    (hsqrt : L.sqrt 0 = 0)
    (hsl : a.strafe_left_ = Vec3.zero) (hsr : a.strafe_right_ = Vec3.zero)
    (hfw : a.forward_ = Vec3.zero) (hbw : a.backward_ = Vec3.zero) :
    ∃ b : Agent F, a.Update L EPSILON terrain dt = b.DownMove terrain dt ∧
      b.tunables = a.tunables ∧ b.jumping_ = a.jumping_ ∧
      b.vertical_velocity_ = ((a.dampingStep L dt).gravityStep dt).vertical_velocity_ ∧
      b.vertical_offset_ = ((a.dampingStep L dt).gravityStep dt).vertical_velocity_ * dt ∧
      (if terrain.SamplePassable
            (a.transform.GetPosition + a.up_ * a.step_height_ + a.jump_axis_ *
              (if ((a.dampingStep L dt).gravityStep dt).vertical_velocity_ * dt > 0 then
                ((a.dampingStep L dt).gravityStep dt).vertical_velocity_ * dt else 0)).x
            (a.transform.GetPosition + a.up_ * a.step_height_ + a.jump_axis_ *
              (if ((a.dampingStep L dt).gravityStep dt).vertical_velocity_ * dt > 0 then
                ((a.dampingStep L dt).gravityStep dt).vertical_velocity_ * dt else 0)).z then
        b.target_position_ = a.target_position_ ∧ b.step_offset_ = a.step_offset_
      else
        b.target_position_ =
            a.transform.GetPosition + a.up_ * a.step_height_ + a.jump_axis_ *
              (if ((a.dampingStep L dt).gravityStep dt).vertical_velocity_ * dt > 0 then
                ((a.dampingStep L dt).gravityStep dt).vertical_velocity_ * dt else 0) ∧
          b.step_offset_ =
            (if ((a.dampingStep L dt).gravityStep dt).vertical_velocity_ < 0 then a.step_height_
              else 0)) := by
  rw [Update_stages]
  have V4 : (Agent.gravityStep (Agent.dampingStep L
      { a with prev_position_ := a.transform.GetPosition, on_ground_ := a.OnGround EPSILON } dt)
        dt).vertical_velocity_ = ((a.dampingStep L dt).gravityStep dt).vertical_velocity_ := by
    rw [velocity_after_gravity, velocity_after_gravity]
  obtain ⟨t3, tr3, ja3, j3⟩ := dampingStep_frame L
    { a with prev_position_ := a.transform.GetPosition, on_ground_ := a.OnGround EPSILON } dt
  obtain ⟨t4, tr4, ja4, j4⟩ := gravityStep_frame (Agent.dampingStep L
    { a with prev_position_ := a.transform.GetPosition, on_ground_ := a.OnGround EPSILON } dt) dt
  obtain ⟨p3, s3⟩ := dampingStep_target L
    { a with prev_position_ := a.transform.GetPosition, on_ground_ := a.OnGround EPSILON } dt
  obtain ⟨p4, s4⟩ := gravityStep_target (Agent.dampingStep L
    { a with prev_position_ := a.transform.GetPosition, on_ground_ := a.OnGround EPSILON } dt) dt
  have T4 := t4.trans t3
  have TR4 := tr4.trans tr3
  have JA4 := ja4.trans ja3
  have J4 := j4.trans j3
  have P4 := p4.trans p3
  have S4 := s4.trans s3
  clear t3 tr3 ja3 j3 t4 tr4 ja4 j4 p3 s3 p4 s4
  generalize ((a.dampingStep L dt).gravityStep dt).vertical_velocity_ = W at *
  generalize Agent.gravityStep (Agent.dampingStep L
    { a with prev_position_ := a.transform.GetPosition, on_ground_ := a.OnGround EPSILON } dt)
      dt = a4 at *
  change a4.tunables = a.tunables at T4
  change a4.transform = a.transform at TR4
  change a4.jump_axis_ = a.jump_axis_ at JA4
  change a4.jumping_ = a.jumping_ at J4
  change a4.target_position_ = a.target_position_ at P4
  change a4.step_offset_ = a.step_offset_ at S4
  have hT4 := T4
  simp only [Agent.tunables, Prod.mk.injEq] at hT4
  obtain ⟨-, -, -, -, hT4up, -, -, hT4sh, -, -, -, -, -⟩ := hT4
  -- the step up
  obtain ⟨t6, j6, v6, o6, c6⟩ := UpMove_frame terrain
    { a4 with vertical_offset_ := a4.vertical_velocity_ * dt } dt
  have hcand : Agent.upCandidate { a4 with vertical_offset_ := a4.vertical_velocity_ * dt } =
      a.transform.GetPosition + a.up_ * a.step_height_ + a.jump_axis_ *
        (if W * dt > 0 then W * dt else 0) := by
    unfold Agent.upCandidate
    dsimp only
    rw [TR4, hT4up, hT4sh, JA4, V4]
  rw [hcand] at c6
  generalize Agent.UpMove terrain { a4 with vertical_offset_ := a4.vertical_velocity_ * dt } dt
    = a6 at *
  dsimp only at t6 j6 v6 o6 c6
  rw [P4, S4, V4, hT4sh] at c6
  have T6 : a6.tunables = a.tunables := t6.trans T4
  have hT6 := T6
  simp only [Agent.tunables, Prod.mk.injEq] at hT6
  obtain ⟨hsl6, hsr6, hfw6, hbw6, -, -, -, -, -, -, -, -, -⟩ := hT6
  -- the walk
  obtain ⟨w7, t7, j7, v7, o7, p7, s7⟩ := walkDirectionStep_idle_frame L a6
    (hsl6.trans hsl) (hsr6.trans hsr) (hfw6.trans hfw) (hbw6.trans hbw)
  generalize Agent.walkDirectionStep L a6 = a7 at *
  rw [w7, WalkingMove_idle L terrain a7 dt hsqrt]
  refine ⟨a7, rfl, t7.trans T6, (j7.trans j6).trans J4, (v7.trans v6).trans V4,
    (o7.trans o6).trans (by rw [V4]), ?_⟩
  rw [p7, s7]
  exact c6

theorem DownMove_step_offset (terrain : Terrain F) (a : Agent F) (dt : F) :
    (a.DownMove terrain dt).step_offset_ = a.step_offset_ := by
  rw [DownMove_eq_specLanding]
  unfold Agent.specLanding
  split_ifs <;> rfl

/-- The y coordinate after `DownMove` in terms of the fields `DownMove` reads. -/
theorem DownMove_position_y (terrain : Terrain F) (a : Agent F) (dt : F) :
    (a.DownMove terrain dt).transform.position.y =
      (if (a.target_position_ - a.up_ * (a.step_offset_ +
            (if 0 < max (-a.vertical_velocity_) 0 * dt ∧
                max (-a.vertical_velocity_) 0 * dt > a.fall_speed_ ∧
                (a.on_ground_ = true ∨ a.jumping_ = false) then a.fall_speed_
              else max (-a.vertical_velocity_) 0 * dt))).y <
          terrain.SampleHeight
              (a.target_position_ - a.up_ * (a.step_offset_ +
                (if 0 < max (-a.vertical_velocity_) 0 * dt ∧
                    max (-a.vertical_velocity_) 0 * dt > a.fall_speed_ ∧
                    (a.on_ground_ = true ∨ a.jumping_ = false) then a.fall_speed_
                  else max (-a.vertical_velocity_) 0 * dt))).x
              (a.target_position_ - a.up_ * (a.step_offset_ +
                (if 0 < max (-a.vertical_velocity_) 0 * dt ∧
                    max (-a.vertical_velocity_) 0 * dt > a.fall_speed_ ∧
                    (a.on_ground_ = true ∨ a.jumping_ = false) then a.fall_speed_
                  else max (-a.vertical_velocity_) 0 * dt))).z + a.height_ then
        terrain.SampleHeight
            (a.target_position_ - a.up_ * (a.step_offset_ +
              (if 0 < max (-a.vertical_velocity_) 0 * dt ∧
                  max (-a.vertical_velocity_) 0 * dt > a.fall_speed_ ∧
                  (a.on_ground_ = true ∨ a.jumping_ = false) then a.fall_speed_
                else max (-a.vertical_velocity_) 0 * dt))).x
            (a.target_position_ - a.up_ * (a.step_offset_ +
              (if 0 < max (-a.vertical_velocity_) 0 * dt ∧
                  max (-a.vertical_velocity_) 0 * dt > a.fall_speed_ ∧
                  (a.on_ground_ = true ∨ a.jumping_ = false) then a.fall_speed_
                else max (-a.vertical_velocity_) 0 * dt))).z + a.height_
      else
        (a.target_position_ - a.up_ * (a.step_offset_ +
          (if 0 < max (-a.vertical_velocity_) 0 * dt ∧
              max (-a.vertical_velocity_) 0 * dt > a.fall_speed_ ∧
              (a.on_ground_ = true ∨ a.jumping_ = false) then a.fall_speed_
            else max (-a.vertical_velocity_) 0 * dt))).y) := by
  rw [DownMove_eq_specLanding]
  generalize (if 0 < max (-a.vertical_velocity_) 0 * dt ∧
      max (-a.vertical_velocity_) 0 * dt > a.fall_speed_ ∧
        (a.on_ground_ = true ∨ a.jumping_ = false) then a.fall_speed_
      else max (-a.vertical_velocity_) 0 * dt) = d
  unfold Agent.specLanding
  split_ifs <;> rfl

theorem pos_part_eq_max (v : F) : (if v > 0 then v else 0) = max v 0 := by
  split_ifs with h
  · exact (max_eq_left (le_of_lt h)).symm
  · exact (max_eq_right (not_lt.mp h)).symm

/-- The beacon check in terms of the state reached after a hit. -/
theorem checkBeacons_eq (L : Glm F) (g : Game F) :
    g.checkBeacons L =
      match g.beacons[g.active_beacon_index]? with
      | none => none
      | some b =>
        if length L (g.player.transform.position - b.transform.position) <
            player_hitbox_g + beacon_hitbox_g then
          match (g.beaconHit b).beacons[(g.beaconHit b).active_beacon_index]? with
          | none => none
          | some b2 =>
            some { g.beaconHit b with
              beacons := (g.beaconHit b).beacons.set (g.beaconHit b).active_beacon_index
                { b2 with inverted := true } }
        else some g := rfl

theorem beaconHit_index (g : Game F) (b : SceneNode F) :
    (g.beaconHit b).active_beacon_index = g.active_beacon_index + 1 ∧
      (g.beaconHit b).beacons.length = g.beacons.length ∧
      (g.beaconHit b).player = g.player ∧ (g.beaconHit b).enemies = g.enemies ∧
      (g.beaconHit b).powerups = g.powerups := by
  unfold Game.beaconHit
  dsimp only
  split_ifs
  · exact ⟨rfl, List.length_set _ _ _, rfl, rfl, rfl⟩
  · exact ⟨rfl, List.length_set _ _ _, rfl, rfl, rfl⟩

/-- A hit on the last beacon: the win is signalled, the index becomes `beacons.size()`, and the
write to `beacons[active_beacon_index]` of line 256 is out of bounds. -/
theorem checkBeacons_last_hit (L : Glm F) (g : Game F) (b : SceneNode F)
    (hb : g.beacons[g.active_beacon_index]? = some b)
    (hlast : g.active_beacon_index + 1 = g.beacons.length)
    (hhit : length L (g.player.transform.position - b.transform.position) <
      player_hitbox_g + beacon_hitbox_g) :
    (g.beaconHit b).background = ⟨0, 1, 0⟩ ∧
      (g.beaconHit b).console = g.console ++ ["WINNER!"] ∧
      (g.beaconHit b).active_beacon_index = (g.beaconHit b).beacons.length ∧
      (g.beaconHit b).beacons[(g.beaconHit b).active_beacon_index]? = none ∧
      g.checkBeacons L = none ∧ g.CheckCollisions L = none := by
  obtain ⟨hi, hl, -, -, -⟩ := beaconHit_index g b
  have hnone : (g.beaconHit b).beacons[(g.beaconHit b).active_beacon_index]? = none := by
    rw [List.getElem?_eq_none_iff, hi, hl, hlast]
  have hcb : g.checkBeacons L = none := by
    rw [checkBeacons_eq, hb]
    dsimp only
    rw [if_pos hhit, hnone]
  have hwin : (g.active_beacon_index + 1 = (g.beacons.set g.active_beacon_index
      { b with inverted := false }).length) := by
    rw [List.length_set]
    exact hlast
  refine ⟨?_, ?_, by rw [hi, hl, hlast], hnone, hcb, ?_⟩
  · unfold Game.beaconHit
    dsimp only
    rw [if_pos hwin]
  · unfold Game.beaconHit
    dsimp only
    rw [if_pos hwin]
  · unfold Game.CheckCollisions
    rw [hcb]

/-- A beacon check that completes leaves the player, the enemies, the powerups, the background
and the console as they were. -/
theorem checkBeacons_frame (L : Glm F) (g g1 : Game F) (h : g.checkBeacons L = some g1) :
    g1.player = g.player ∧ g1.enemies = g.enemies ∧ g1.powerups = g.powerups ∧
      g1.background = g.background ∧ g1.console = g.console := by
  rw [checkBeacons_eq] at h
  cases hb : g.beacons[g.active_beacon_index]? with
  | none =>
    rw [hb] at h
    exact absurd h (by simp)
  | some b =>
    rw [hb] at h
    dsimp only at h
    by_cases hhit : length L (g.player.transform.position - b.transform.position) <
        player_hitbox_g + beacon_hitbox_g
    · rw [if_pos hhit] at h
      cases hb2 : (g.beaconHit b).beacons[(g.beaconHit b).active_beacon_index]? with
      | none =>
        rw [hb2] at h
        exact absurd h (by simp)
      | some b2 =>
        rw [hb2] at h
        dsimp only at h
        have hlt : (g.beaconHit b).active_beacon_index < (g.beaconHit b).beacons.length := by
          by_contra hge
          rw [List.getElem?_eq_none_iff.mpr (not_lt.mp hge)] at hb2
          exact absurd hb2 (by simp)
        obtain ⟨hi, hl, hp, he, hpu⟩ := beaconHit_index g b
        have hnw : ¬ (g.active_beacon_index + 1 = (g.beacons.set g.active_beacon_index
            { b with inverted := false }).length) := by
          rw [List.length_set]
          rw [hi, hl] at hlt
          exact Nat.ne_of_lt hlt
        have hbg : (g.beaconHit b).background = g.background ∧
            (g.beaconHit b).console = g.console := by
          unfold Game.beaconHit
          dsimp only
          rw [if_neg hnw]
          exact ⟨rfl, rfl⟩
        have hg1 := (Option.some.inj h).symm
        rw [hg1]
        exact ⟨hp, he, hpu, hbg.1, hbg.2⟩
    · rw [if_neg hhit] at h
      have hg1 := (Option.some.inj h).symm
      rw [hg1]
      exact ⟨rfl, rfl, rfl, rfl, rfl⟩

theorem enemyHit_iff (L : Glm F) (p : Vec3 F) (e : SceneNode F) :
    enemyHit L p e = true ↔
      (length L (p - e.transform.position) < player_hitbox_g + enemy_hitbox_g ∧
        e.active = true) := by
  simp [enemyHit]

theorem powerupHit_iff (L : Glm F) (p : Vec3 F) (e : SceneNode F) :
    powerupHit L p e = true ↔
      (length L (p - e.transform.position) < player_hitbox_g + powerup_hitbox_g ∧
        e.active = true) := by
  simp [powerupHit]

theorem enemyLoop_cons_hit (L : Glm F) (g : Game F) (e : SceneNode F)
    (rest : List (SceneNode F)) (h : enemyHit L g.player.transform.position e = true) :
    Game.enemyLoop L g (e :: rest) =
      ((Game.enemyLoop L g.enemyStrike rest).1,
        { e with active := false } :: (Game.enemyLoop L g.enemyStrike rest).2) := by
  rw [Game.enemyLoop]
  dsimp only
  rw [if_pos ((enemyHit_iff L _ e).mp h)]
  rfl

theorem enemyLoop_cons_miss (L : Glm F) (g : Game F) (e : SceneNode F)
    (rest : List (SceneNode F)) (h : ¬ enemyHit L g.player.transform.position e = true) :
    Game.enemyLoop L g (e :: rest) =
      ((Game.enemyLoop L g rest).1, e :: (Game.enemyLoop L g rest).2) := by
  rw [Game.enemyLoop]
  dsimp only
  rw [if_neg (fun hh => h ((enemyHit_iff L _ e).mpr hh))]

theorem powerupLoop_cons_hit (L : Glm F) (g : Game F) (e : SceneNode F)
    (rest : List (SceneNode F)) (h : powerupHit L g.player.transform.position e = true) :
    Game.powerupLoop L g (e :: rest) =
      ((Game.powerupLoop L g.powerupGain rest).1,
        { e with active := false, inverted := false } ::
          (Game.powerupLoop L g.powerupGain rest).2) := by
  rw [Game.powerupLoop]
  dsimp only
  rw [if_pos ((powerupHit_iff L _ e).mp h)]
  rfl

theorem powerupLoop_cons_miss (L : Glm F) (g : Game F) (e : SceneNode F)
    (rest : List (SceneNode F)) (h : ¬ powerupHit L g.player.transform.position e = true) :
    Game.powerupLoop L g (e :: rest) =
      ((Game.powerupLoop L g rest).1, e :: (Game.powerupLoop L g rest).2) := by
  rw [Game.powerupLoop]
  dsimp only
  rw [if_neg (fun hh => h ((powerupHit_iff L _ e).mpr hh))]

theorem enemyStrike_frame (g : Game F) :
    g.enemyStrike.player.transform = g.player.transform ∧
      g.enemyStrike.player.lives = g.player.lives - 1 ∧
      g.enemyStrike.player.move_speed = g.player.move_speed - speed_upgrade_g ∧
      g.enemyStrike.enemies = g.enemies ∧ g.enemyStrike.powerups = g.powerups := by
  unfold Game.enemyStrike
  dsimp only
  split_ifs <;> exact ⟨rfl, rfl, rfl, rfl, rfl⟩

theorem enemyStrike_signal (g : Game F) :
    (g.player.lives - 1 < 1 →
        g.enemyStrike.background = ⟨1, 0, 0⟩ ∧
          g.enemyStrike.console = g.console ++ ["LOSER!"]) ∧
      (¬ g.player.lives - 1 < 1 →
        g.enemyStrike.background = g.background ∧ g.enemyStrike.console = g.console) := by
  unfold Game.enemyStrike
  dsimp only
  constructor
  · intro h
    rw [if_pos h]
    exact ⟨rfl, rfl⟩
  · intro h
    rw [if_neg h]
    exact ⟨rfl, rfl⟩

/-- The enemy loop: every hit enemy is deactivated, each hit costs one life and
`speed_upgrade_g` of speed, and nothing else of the player or of the entity lists changes. -/
theorem enemyLoop_spec (L : Glm F) (es : List (SceneNode F)) (g : Game F) :
    (Game.enemyLoop L g es).2 =
        es.map (fun e =>
          if enemyHit L g.player.transform.position e then { e with active := false } else e) ∧
      (Game.enemyLoop L g es).1.player.transform = g.player.transform ∧
      (Game.enemyLoop L g es).1.player.lives =
        g.player.lives - (es.countP (enemyHit L g.player.transform.position) : ℕ) ∧
      (Game.enemyLoop L g es).1.player.move_speed =
        g.player.move_speed -
          speed_upgrade_g * (es.countP (enemyHit L g.player.transform.position) : ℕ) ∧
      (Game.enemyLoop L g es).1.enemies = g.enemies ∧
      (Game.enemyLoop L g es).1.powerups = g.powerups := by
  induction es generalizing g with
  | nil =>
    refine ⟨rfl, rfl, ?_, ?_, rfl, rfl⟩
    · simp [Game.enemyLoop]
    · simp [Game.enemyLoop]
  | cons e rest ih =>
    by_cases hE : enemyHit L g.player.transform.position e = true
    · rw [enemyLoop_cons_hit L g e rest hE]
      obtain ⟨h3t, h3l, h3s, h3e, h3p⟩ := enemyStrike_frame g
      obtain ⟨i1, i2, i3, i4, i5, i6⟩ := ih g.enemyStrike
      rw [h3t] at i1 i3 i4
      dsimp only
      refine ⟨?_, i2.trans h3t, ?_, ?_, i5.trans h3e, i6.trans h3p⟩
      · rw [List.map_cons, if_pos hE, i1]
      · rw [i3, h3l, List.countP_cons_of_pos _ _ hE]
        push_cast
        ring
      · rw [i4, h3s, List.countP_cons_of_pos _ _ hE]
        push_cast
        ring
    · rw [enemyLoop_cons_miss L g e rest hE]
      obtain ⟨i1, i2, i3, i4, i5, i6⟩ := ih g
      dsimp only
      refine ⟨?_, i2, ?_, ?_, i5, i6⟩
      · rw [List.map_cons, if_neg hE, i1]
      · rw [i3, List.countP_cons_of_neg _ _ hE]
      · rw [i4, List.countP_cons_of_neg _ _ hE]

/-- The lose signal of the enemy loop: without a hit the background and the console are left
alone; with at least one hit that leaves fewer than one life the background is red and the
console holds the line LOSER!. -/
theorem enemyLoop_lose (L : Glm F) (es : List (SceneNode F)) (g : Game F) :
    (es.countP (enemyHit L g.player.transform.position) = 0 →
        (Game.enemyLoop L g es).1.background = g.background ∧
          (Game.enemyLoop L g es).1.console = g.console) ∧
      (1 ≤ es.countP (enemyHit L g.player.transform.position) →
        g.player.lives - (es.countP (enemyHit L g.player.transform.position) : ℕ) < 1 →
        (Game.enemyLoop L g es).1.background = ⟨1, 0, 0⟩ ∧
          "LOSER!" ∈ (Game.enemyLoop L g es).1.console) := by
  induction es generalizing g with
  | nil =>
    refine ⟨fun _ => ⟨rfl, rfl⟩, fun h => ?_⟩
    simp at h
  | cons e rest ih =>
    by_cases hE : enemyHit L g.player.transform.position e = true
    · rw [enemyLoop_cons_hit L g e rest hE, List.countP_cons_of_pos _ _ hE]
      obtain ⟨h3t, h3l, -, -, -⟩ := enemyStrike_frame g
      obtain ⟨ih0, ih1⟩ := ih g.enemyStrike
      rw [h3t] at ih0 ih1
      rw [h3l] at ih1
      dsimp only
      refine ⟨fun h => absurd h (Nat.succ_ne_zero _), fun _ hl => ?_⟩
      push_cast at hl
      by_cases hc : rest.countP (enemyHit L g.player.transform.position) = 0
      · obtain ⟨hb, hco⟩ := ih0 hc
        rw [hc] at hl
        obtain ⟨sb, sc⟩ := (enemyStrike_signal g).1 (by simpa using hl)
        rw [hb, hco, sb, sc]
        exact ⟨rfl, by simp⟩
      · exact ih1 (Nat.one_le_iff_ne_zero.mpr hc) (by linarith)
    · rw [enemyLoop_cons_miss L g e rest hE, List.countP_cons_of_neg _ _ hE]
      exact ih g

/-- The powerup loop: every hit powerup is deactivated and no longer inverted, each hit adds
one life and `speed_upgrade_g` of speed, and nothing else changes. -/
theorem powerupLoop_spec (L : Glm F) (ps : List (SceneNode F)) (g : Game F) :
    (Game.powerupLoop L g ps).2 =
        ps.map (fun e =>
          if powerupHit L g.player.transform.position e then
            { e with active := false, inverted := false } else e) ∧
      (Game.powerupLoop L g ps).1.player.transform = g.player.transform ∧
      (Game.powerupLoop L g ps).1.player.lives =
        g.player.lives + (ps.countP (powerupHit L g.player.transform.position) : ℕ) ∧
      (Game.powerupLoop L g ps).1.player.move_speed =
        g.player.move_speed +
          speed_upgrade_g * (ps.countP (powerupHit L g.player.transform.position) : ℕ) ∧
      (Game.powerupLoop L g ps).1.enemies = g.enemies ∧
      (Game.powerupLoop L g ps).1.background = g.background ∧
      (Game.powerupLoop L g ps).1.console = g.console := by
  induction ps generalizing g with
  | nil =>
    refine ⟨rfl, rfl, ?_, ?_, rfl, rfl, rfl⟩
    · simp [Game.powerupLoop]
    · simp [Game.powerupLoop]
  | cons e rest ih =>
    by_cases hE : powerupHit L g.player.transform.position e = true
    · rw [powerupLoop_cons_hit L g e rest hE]
      obtain ⟨i1, i2, i3, i4, i5, i6, i7⟩ := ih g.powerupGain
      change (Game.powerupLoop L g.powerupGain rest).2 = rest.map (fun e =>
        if powerupHit L g.player.transform.position e then
          { e with active := false, inverted := false } else e) at i1
      change _ = g.player.transform at i2
      change _ = g.player.lives + 1 +
        (rest.countP (powerupHit L g.player.transform.position) : ℕ) at i3
      change _ = g.player.move_speed + speed_upgrade_g +
        speed_upgrade_g * (rest.countP (powerupHit L g.player.transform.position) : ℕ) at i4
      change _ = g.enemies at i5
      change _ = g.background at i6
      change _ = g.console at i7
      dsimp only
      refine ⟨?_, i2, ?_, ?_, i5, i6, i7⟩
      · rw [List.map_cons, if_pos hE, i1]
      · rw [i3, List.countP_cons_of_pos _ _ hE]
        push_cast
        ring
      · rw [i4, List.countP_cons_of_pos _ _ hE]
        push_cast
        ring
    · rw [powerupLoop_cons_miss L g e rest hE]
      obtain ⟨i1, i2, i3, i4, i5, i6, i7⟩ := ih g
      dsimp only
      refine ⟨?_, i2, ?_, ?_, i5, i6, i7⟩
      · rw [List.map_cons, if_neg hE, i1]
      · rw [i3, List.countP_cons_of_neg _ _ hE]
      · rw [i4, List.countP_cons_of_neg _ _ hE]

theorem countP_enemyHit_after (L : Glm F) (p : Vec3 F) (es : List (SceneNode F)) :
    (es.map (fun e => if enemyHit L p e then { e with active := false } else e)).countP
      (enemyHit L p) = 0 := by
  rw [List.countP_eq_zero]
  intro x hx
  rw [List.mem_map] at hx
  obtain ⟨e, -, rfl⟩ := hx
  by_cases h : enemyHit L p e = true
  · rw [if_pos h]
    simp [enemyHit]
  · rw [if_neg h]
    exact h

theorem countP_powerupHit_after (L : Glm F) (p : Vec3 F) (ps : List (SceneNode F)) :
    (ps.map (fun e =>
      if powerupHit L p e then { e with active := false, inverted := false } else e)).countP
      (powerupHit L p) = 0 := by
  rw [List.countP_eq_zero]
  intro x hx
  rw [List.mem_map] at hx
  obtain ⟨e, -, rfl⟩ := hx
  by_cases h : powerupHit L p e = true
  · rw [if_pos h]
    simp [powerupHit]
  · rw [if_neg h]
    exact h

/-- The effect of a completed `Game::CheckCollisions` on the player, the enemies, the powerups
and the lose signal, with `E` the number of enemies hit and `P` the number of powerups hit. -/
theorem CheckCollisions_spec (L : Glm F) (g g1 : Game F) (hb : g.checkBeacons L = some g1) :
    ∃ g', g.CheckCollisions L = some g' ∧
      g'.player.transform = g.player.transform ∧
      g'.player.lives =
        g.player.lives - (g.enemies.countP (enemyHit L g.player.transform.position) : ℕ) +
          (g.powerups.countP (powerupHit L g.player.transform.position) : ℕ) ∧
      g'.player.move_speed =
        g.player.move_speed -
            speed_upgrade_g * (g.enemies.countP (enemyHit L g.player.transform.position) : ℕ) +
          speed_upgrade_g *
            (g.powerups.countP (powerupHit L g.player.transform.position) : ℕ) ∧
      g'.enemies = g.enemies.map (fun e =>
        if enemyHit L g.player.transform.position e then { e with active := false } else e) ∧
      g'.powerups = g.powerups.map (fun e =>
        if powerupHit L g.player.transform.position e then
          { e with active := false, inverted := false } else e) ∧
      (g.enemies.countP (enemyHit L g.player.transform.position) = 0 →
        g'.background = g.background ∧ g'.console = g.console) ∧
      (1 ≤ g.enemies.countP (enemyHit L g.player.transform.position) →
        g.player.lives - (g.enemies.countP (enemyHit L g.player.transform.position) : ℕ) < 1 →
        g'.background = ⟨1, 0, 0⟩ ∧ "LOSER!" ∈ g'.console) := by
  obtain ⟨fp, fe, fpu, fbg, fco⟩ := checkBeacons_frame L g g1 hb
  unfold Game.CheckCollisions
  rw [hb]
  dsimp only
  refine ⟨_, rfl, ?_⟩
  obtain ⟨e1, e2, e3, e4, -, e6⟩ := enemyLoop_spec L g1.enemies g1
  obtain ⟨l0, l1⟩ := enemyLoop_lose L g1.enemies g1
  generalize Game.enemyLoop L g1 g1.enemies = re at *
  rw [fp, fe] at e1 e3 e4 l0 l1
  rw [fp] at e2
  rw [fpu] at e6
  rw [fbg, fco] at l0
  obtain ⟨p1, p2, p3, p4, p5, p6, p7⟩ := powerupLoop_spec L re.1.powerups
    { re.1 with enemies := re.2 }
  generalize Game.powerupLoop L { re.1 with enemies := re.2 } re.1.powerups = rp at *
  dsimp only at p1 p2 p3 p4 p5 p6 p7
  rw [e6, e2] at p1 p3 p4
  rw [e2] at p2
  rw [e3] at p3
  rw [e4] at p4
  rw [e1] at p5
  refine ⟨p2, p3, p4, p5, p1, ?_, ?_⟩
  · intro h0
    obtain ⟨hb0, hc0⟩ := l0 h0
    exact ⟨p6.trans hb0, p7.trans hc0⟩
  · intro h1 hl
    obtain ⟨hb1, hc1⟩ := l1 h1 hl
    refine ⟨p6.trans hb1, ?_⟩
    show "LOSER!" ∈ rp.1.console
    rw [p7]
    exact hc1

end StageLemmas

/-! ## The claims -/

section Claims

variable {F : Type} [LinearOrderedField F]

/-- C1: on flat terrain (height `H`, nowhere blocked), an agent with world-up `(0, 1, 0)` that
starts with position y above `H + height`, zero vertical velocity, not jumping and without
directional input settles: for every fixed dt > 0 with gravity > 0, fall_speed > 0 and
movement_damping < 1 there is a number `N` of `Agent::Update` calls after which, and after
every later update, the position y equals `H + height` and the vertical velocity is zero.  The
terrain slope, the initial vertical offset and the lower bound on the damping play no role. -/
theorem C1_settles_on_flat_ground (EPSILON : ℝ) (terrain : Terrain ℝ) (a : Agent ℝ) (dt H : ℝ)
    (hflat : ∀ x z, terrain.SampleHeight x z = H)
    (hfree : ∀ x z, terrain.SamplePassable x z = false)
    (hup : a.up_ = ⟨0, 1, 0⟩)
    (hy : a.transform.position.y > H + a.height_)
    (hv : a.vertical_velocity_ = 0)
    (hj : a.jumping_ = false)
    (hsl : a.strafe_left_ = Vec3.zero) (hsr : a.strafe_right_ = Vec3.zero)
    (hfw : a.forward_ = Vec3.zero) (hbw : a.backward_ = Vec3.zero)
    (hdt : 0 < dt) (hg : 0 < a.gravity_) (hfs : 0 < a.fall_speed_)
    (hd1 : a.movement_damping_ < 1) :
    ∃ N : ℕ, ∀ n : ℕ, N ≤ n →
      ((fun s : Agent ℝ => s.Update realGlm EPSILON terrain dt)^[n] a).transform.position.y =
          H + a.height_ ∧
        ((fun s : Agent ℝ => s.Update realGlm EPSILON terrain dt)^[n] a).vertical_velocity_ =
          0 := by
  have hδ : 0 < min (min (a.gravity_ * dt) a.fall_speed_ * dt) a.fall_speed_ :=
    lt_min (mul_pos (lt_min (mul_pos hg hdt) hfs) hdt) hfs
  generalize hδdef : min (min (a.gravity_ * dt) a.fall_speed_ * dt) a.fall_speed_ = δ at hδ
  have key : ∀ n : ℕ,
      ((fun s : Agent ℝ => s.Update realGlm EPSILON terrain dt)^[n] a).tunables = a.tunables ∧
      ((fun s : Agent ℝ => s.Update realGlm EPSILON terrain dt)^[n] a).jumping_ = false ∧
      ((fun s : Agent ℝ => s.Update realGlm EPSILON terrain dt)^[n] a).vertical_velocity_ ≤ 0 ∧
      H + a.height_ ≤
        ((fun s : Agent ℝ => s.Update realGlm EPSILON terrain dt)^[n] a).transform.position.y ∧
      ((((fun s : Agent ℝ => s.Update realGlm EPSILON terrain dt)^[n] a).transform.position.y =
            H + a.height_ ∧
          ((fun s : Agent ℝ => s.Update realGlm EPSILON terrain dt)^[n] a).vertical_velocity_ =
            0) ∨
        ((fun s : Agent ℝ => s.Update realGlm EPSILON terrain dt)^[n] a).transform.position.y ≤
          a.transform.position.y - n * δ) := by
    intro n
    induction n with
    | zero =>
      refine ⟨rfl, hj, hv.le, hy.le, Or.inr ?_⟩
      simp
    | succ k ih =>
      rw [Function.iterate_succ_apply']
      generalize (fun s : Agent ℝ => s.Update realGlm EPSILON terrain dt)^[k] a = s at ih
      obtain ⟨ht, hjs, hvs, hys, hcase⟩ := ih
      show (s.Update realGlm EPSILON terrain dt).tunables = a.tunables ∧ _
      have ht' := ht
      simp only [Agent.tunables, Prod.mk.injEq] at ht'
      obtain ⟨e1, e2, e3, e4, e5, -, e7, -, e9, -, -, e12, e13⟩ := ht'
      have hq : 0 ≤ realGlm.pow (1 - s.movement_damping_) dt := by
        show 0 ≤ (1 - s.movement_damping_) ^ dt
        exact Real.rpow_nonneg (by rw [e13]; linarith) dt
      obtain ⟨d, hd, ht2, hj2, hv2, hland, hfall⟩ := Update_flat_fall realGlm EPSILON terrain s
        dt H Real.sqrt_zero hflat hfree (e5.trans hup) (e1.trans hsl) (e2.trans hsr)
        (e3.trans hfw) (e4.trans hbw) hjs hdt (by rw [e12]; exact hg) (by rw [e9]; exact hfs)
        (mul_nonpos_iff.mpr (Or.inr ⟨hvs, hq⟩))
      rw [e12, e9, hδdef] at hd
      rw [e7] at hland hfall
      by_cases hc : s.transform.position.y - d < H + a.height_
      · obtain ⟨hy2, hv2', -⟩ := hland hc
        exact ⟨ht2.trans ht, hj2, hv2, hy2.ge, Or.inl ⟨hy2, hv2'⟩⟩
      · have hy2 := hfall hc
        refine ⟨ht2.trans ht, hj2, hv2, by rw [hy2]; exact not_lt.mp hc, Or.inr ?_⟩
        rcases hcase with ⟨hland0, -⟩ | hprog
        · exact absurd (by rw [hland0]; linarith) hc
        · rw [hy2]
          push_cast
          linarith
  obtain ⟨N, hN⟩ := exists_nat_gt ((a.transform.position.y - (H + a.height_)) / δ)
  rw [div_lt_iff₀ hδ] at hN
  refine ⟨N, fun n hn => ?_⟩
  obtain ⟨-, -, -, hge, hcase⟩ := key n
  rcases hcase with hland | hprog
  · exact hland
  · exfalso
    have hNn : (N : ℝ) ≤ n := by exact_mod_cast hn
    have : (N : ℝ) * δ ≤ n * δ := mul_le_mul_of_nonneg_right hNn hδ.le
    linarith

/-- Witness of C1: the resting example agent dropped from y = 3 over flat ground of height 0
(body height 1), at fifty updates per second. -/
theorem C1_settles_on_flat_ground_witness :
    (restingAgent (3 : ℝ)).transform.position.y > 0 + (restingAgent (3 : ℝ)).height_ ∧
      ∃ N : ℕ, ∀ n : ℕ, N ≤ n →
        ((fun s : Agent ℝ => s.Update realGlm (1 / 1000) (flatTerrain 0) (1 / 50))^[n]
            (restingAgent (3 : ℝ))).transform.position.y =
            0 + (restingAgent (3 : ℝ)).height_ ∧
          ((fun s : Agent ℝ => s.Update realGlm (1 / 1000) (flatTerrain 0) (1 / 50))^[n]
            (restingAgent (3 : ℝ))).vertical_velocity_ = 0 :=
  ⟨by norm_num [restingAgent],
    C1_settles_on_flat_ground (1 / 1000) (flatTerrain 0) (restingAgent (3 : ℝ)) (1 / 50) 0
      (fun _ _ => rfl) (fun _ _ => rfl) rfl (by norm_num [restingAgent]) rfl rfl rfl rfl rfl rfl
      (by norm_num) (by norm_num [restingAgent]) (by norm_num [restingAgent])
      (by norm_num [restingAgent])⟩

/-- C2: for any input vertical velocity and any dt, the vertical velocity that `Agent::Update`
holds right after damping, gravity integration and the two clamps lies in
`[-|fall_speed|, jump_speed]`, the jump speed being non-negative. -/
theorem C2_velocity_clamped_after_gravity (L : Glm F) (a : Agent F) (dt : F)
    (hjs : 0 ≤ a.jump_speed_) :
    -|a.fall_speed_| ≤ ((a.dampingStep L dt).gravityStep dt).vertical_velocity_ ∧
      ((a.dampingStep L dt).gravityStep dt).vertical_velocity_ ≤ a.jump_speed_ := by
  have h := gravityStep_bounds (a.dampingStep L dt) dt
    (by rw [dampingStep_jump_speed]; exact hjs)
  rw [dampingStep_fall_speed, dampingStep_jump_speed] at h
  exact h

/-- Witness of C2: the resting example agent over the reals, one second of gravity. -/
theorem C2_velocity_clamped_after_gravity_witness :
    (0 : ℝ) ≤ (restingAgent (3 : ℝ)).jump_speed_ ∧
      -|(restingAgent (3 : ℝ)).fall_speed_| ≤
        (((restingAgent (3 : ℝ)).dampingStep realGlm 1).gravityStep 1).vertical_velocity_ ∧
      (((restingAgent (3 : ℝ)).dampingStep realGlm 1).gravityStep 1).vertical_velocity_ ≤
        (restingAgent (3 : ℝ)).jump_speed_ :=
  ⟨by norm_num [restingAgent],
    C2_velocity_clamped_after_gravity realGlm (restingAgent (3 : ℝ)) 1
      (by norm_num [restingAgent])⟩

/-- C3: whenever `SamplePassable` is true at the planar coordinates of the candidate
`target_position + forward*speed`, `Agent::WalkingMove` leaves the x and z of
`target_position` (indeed all of it) and the transform position unchanged; this holds for every
agent state, move vector (also one of length at most 0.001, which never moves), dt and
terrain. -/
theorem C3_blocked_walk_keeps_position (L : Glm F) (terrain : Terrain F) (a : Agent F)
    (move : Vec3 F) (dt : F)
    (hblocked :
      terrain.SamplePassable (a.target_position_ + a.walkForward L move * a.speed_).x
        (a.target_position_ + a.walkForward L move * a.speed_).z = true) :
    (a.WalkingMove L terrain move dt).target_position_.x = a.target_position_.x ∧
      (a.WalkingMove L terrain move dt).target_position_.z = a.target_position_.z ∧
      (a.WalkingMove L terrain move dt).target_position_ = a.target_position_ ∧
      (a.WalkingMove L terrain move dt).transform.GetPosition = a.transform.GetPosition := by
  rw [WalkingMove_blocked L terrain a move dt hblocked]
  exact ⟨rfl, rfl, rfl, rfl⟩

/-- Witness of C3: the resting agent tries to walk along x in a world that is blocked
everywhere. -/
theorem C3_blocked_walk_keeps_position_witness :
    length realGlm (⟨1, 0, 0⟩ : Vec3 ℝ) > 1 / 1000 ∧
      ((restingAgent (1 : ℝ)).WalkingMove realGlm blockedTerrain ⟨1, 0, 0⟩ (1 / 50)).target_position_
        = ⟨0, 1, 0⟩ :=
  ⟨by norm_num [length, dot, realGlm],
    (C3_blocked_walk_keeps_position realGlm blockedTerrain (restingAgent (1 : ℝ)) ⟨1, 0, 0⟩
      (1 / 50) rfl).2.2.1⟩

/-- C4: an agent at rest on flat ground reports grounded after one update.  On flat terrain
(height `H`, nowhere blocked), for an agent with world-up `(0, 1, 0)`, position y equal to
`H + height`, zero vertical velocity, not jumping and without directional input, and for every
dt > 0 with gravity > 0, fall_speed > 0 and a positive `EPSILON`: after one `Agent::Update`,
`OnGround()` is true, both `|vertical_velocity|` and `|vertical_offset|` are below `EPSILON`
(they are zero), and the position y is still `H + height`.  The vertical offset before the
update plays no role. -/
theorem C4_rest_on_flat_ground_is_grounded (EPSILON : ℝ) (terrain : Terrain ℝ) (a : Agent ℝ)
    (dt H : ℝ) (hEPS : 0 < EPSILON)
    (hflat : ∀ x z, terrain.SampleHeight x z = H)
    (hfree : ∀ x z, terrain.SamplePassable x z = false)
    (hup : a.up_ = ⟨0, 1, 0⟩)
    (hy : a.transform.position.y = H + a.height_)
    (hv : a.vertical_velocity_ = 0)
    (hj : a.jumping_ = false)
    (hsl : a.strafe_left_ = Vec3.zero) (hsr : a.strafe_right_ = Vec3.zero)
    (hfw : a.forward_ = Vec3.zero) (hbw : a.backward_ = Vec3.zero)
    (hdt : 0 < dt) (hg : 0 < a.gravity_) (hfs : 0 < a.fall_speed_) :
    (a.Update realGlm EPSILON terrain dt).OnGround EPSILON = true ∧
      |(a.Update realGlm EPSILON terrain dt).vertical_velocity_| < EPSILON ∧
      |(a.Update realGlm EPSILON terrain dt).vertical_offset_| < EPSILON ∧
      (a.Update realGlm EPSILON terrain dt).transform.position.y = H + a.height_ := by
  obtain ⟨d, hd, -, -, -, hland, -⟩ := Update_flat_fall realGlm EPSILON terrain a dt H
    Real.sqrt_zero hflat hfree hup hsl hsr hfw hbw hj hdt hg hfs (by rw [hv, zero_mul])
  have hdpos : 0 < d :=
    lt_of_lt_of_le (lt_min (mul_pos (lt_min (mul_pos hg hdt) hfs) hdt) hfs) hd
  obtain ⟨hy', hv', ho'⟩ := hland (by rw [hy]; linarith)
  refine ⟨?_, ?_, ?_, hy'⟩
  · unfold Agent.OnGround
    rw [hv', ho', abs_zero]
    simp [hEPS]
  · rw [hv', abs_zero]
    exact hEPS
  · rw [ho', abs_zero]
    exact hEPS

/-- Witness of C4: the resting example agent (body height 1) standing at y = 1 on flat ground of
height 0, with `EPSILON` one thousandth and dt one fiftieth. -/
theorem C4_rest_on_flat_ground_is_grounded_witness :
    ((restingAgent (1 : ℝ)).Update realGlm (1 / 1000) (flatTerrain 0) (1 / 50)).OnGround
        (1 / 1000) = true ∧
      ((restingAgent (1 : ℝ)).Update realGlm (1 / 1000) (flatTerrain 0)
        (1 / 50)).transform.position.y = 0 + (restingAgent (1 : ℝ)).height_ := by
  have h := C4_rest_on_flat_ground_is_grounded (1 / 1000) (flatTerrain 0) (restingAgent (1 : ℝ))
    (1 / 50) 0 (by norm_num) (fun _ _ => rfl) (fun _ _ => rfl) rfl
    (by norm_num [restingAgent]) rfl rfl rfl rfl rfl rfl (by norm_num)
    (by norm_num [restingAgent]) (by norm_num [restingAgent])
  exact ⟨h.1, h.2.2.2⟩

/-- C5: `Agent::Jump(v)` sets the jumping flag; for a non-zero `v` it sets `vertical_velocity`
and `jump_speed` to the Euclidean norm of `v` and `jump_axis` to `v` divided by its norm, for
the zero vector to `base_jump_speed` and the up axis; `Jump((0,5,0))` gives vertical velocity 5
and jump axis `(0,1,0)`; no other field of the agent changes. -/
theorem C5_jump_sets_speed_and_axis (a : Agent ℝ) (v : Vec3 ℝ) :
    (a.Jump realGlm v).jumping_ = true ∧
      (a.Jump realGlm v).vertical_velocity_ =
        (if v = Vec3.zero then a.base_jump_speed_
          else Real.sqrt (v.x ^ 2 + v.y ^ 2 + v.z ^ 2)) ∧
      (a.Jump realGlm v).jump_speed_ =
        (if v = Vec3.zero then a.base_jump_speed_
          else Real.sqrt (v.x ^ 2 + v.y ^ 2 + v.z ^ 2)) ∧
      (a.Jump realGlm v).jump_axis_ =
        (if v = Vec3.zero then a.up_
          else ⟨v.x / Real.sqrt (v.x ^ 2 + v.y ^ 2 + v.z ^ 2),
            v.y / Real.sqrt (v.x ^ 2 + v.y ^ 2 + v.z ^ 2),
            v.z / Real.sqrt (v.x ^ 2 + v.y ^ 2 + v.z ^ 2)⟩) ∧
      (a.Jump realGlm ⟨0, 5, 0⟩).vertical_velocity_ = 5 ∧
      (a.Jump realGlm ⟨0, 5, 0⟩).jump_axis_ = ⟨0, 1, 0⟩ ∧
      a.Jump realGlm v =
        { a with
          jump_speed_ := (a.Jump realGlm v).jump_speed_
          vertical_velocity_ := (a.Jump realGlm v).vertical_velocity_
          jumping_ := (a.Jump realGlm v).jumping_
          jump_axis_ := (a.Jump realGlm v).jump_axis_ } := by
  have hdot : dot v v = v.x ^ 2 + v.y ^ 2 + v.z ^ 2 := by
    unfold dot
    ring
  have hzero : length realGlm v = 0 ↔ v = Vec3.zero := by
    show Real.sqrt (dot v v) = 0 ↔ _
    rw [Real.sqrt_eq_zero', hdot, Vec3.ext_iff3]
    constructor
    · intro h
      have hx := sq_nonneg v.x
      have hy := sq_nonneg v.y
      have hz := sq_nonneg v.z
      refine ⟨?_, ?_, ?_⟩
      · exact pow_eq_zero_iff (two_ne_zero) |>.mp (by linarith)
      · exact pow_eq_zero_iff (two_ne_zero) |>.mp (by linarith)
      · exact pow_eq_zero_iff (two_ne_zero) |>.mp (by linarith)
    · rintro ⟨hx, hy, hz⟩
      simp [hx, hy, hz, Vec3.zero]
  have hlen : length realGlm v = Real.sqrt (v.x ^ 2 + v.y ^ 2 + v.z ^ 2) := by
    show Real.sqrt (dot v v) = _
    rw [hdot]
  have hfive : length realGlm (⟨0, 5, 0⟩ : Vec3 ℝ) = 5 := by
    show Real.sqrt (dot _ _) = 5
    have h25 : dot (⟨0, 5, 0⟩ : Vec3 ℝ) ⟨0, 5, 0⟩ = 5 * 5 := by
      norm_num [dot]
    rw [h25, Real.sqrt_mul_self (by norm_num)]
  refine ⟨rfl, ?_, ?_, ?_, ?_, ?_, rfl⟩
  · show (if length realGlm v = 0 then a.base_jump_speed_ else length realGlm v) = _
    by_cases hv : v = Vec3.zero
    · rw [if_pos (hzero.mpr hv), if_pos hv]
    · rw [if_neg (fun h => hv (hzero.mp h)), if_neg hv, hlen]
  · show (if length realGlm v = 0 then a.base_jump_speed_ else length realGlm v) = _
    by_cases hv : v = Vec3.zero
    · rw [if_pos (hzero.mpr hv), if_pos hv]
    · rw [if_neg (fun h => hv (hzero.mp h)), if_neg hv, hlen]
  · show (if length realGlm v = 0 then a.up_ else normalize realGlm v) = _
    by_cases hv : v = Vec3.zero
    · rw [if_pos (hzero.mpr hv), if_pos hv]
    · rw [if_neg (fun h => hv (hzero.mp h)), if_neg hv]
      show v * (1 / Real.sqrt (dot v v)) = _
      rw [hdot, Vec3.ext_iff3]
      simp [div_eq_mul_inv]
  · show (if length realGlm (⟨0, 5, 0⟩ : Vec3 ℝ) = 0 then a.base_jump_speed_
        else length realGlm (⟨0, 5, 0⟩ : Vec3 ℝ)) = 5
    rw [hfive]
    norm_num
  · show (if length realGlm (⟨0, 5, 0⟩ : Vec3 ℝ) = 0 then a.up_
        else normalize realGlm (⟨0, 5, 0⟩ : Vec3 ℝ)) = _
    rw [hfive, if_neg (by norm_num)]
    have hn : normalize realGlm (⟨0, 5, 0⟩ : Vec3 ℝ)
        = (⟨0, 5, 0⟩ : Vec3 ℝ) * (1 / length realGlm (⟨0, 5, 0⟩ : Vec3 ℝ)) := rfl
    rw [hn, hfive, Vec3.ext_iff3]
    norm_num

/-- C6 as stated fails: with `fall_speed = -1`, zero vertical velocity and dt = 1 the code keeps
the fall amount 0 (its guard `down_velocity > 0.0` is false) and leaves the agent at y = 10,
while the stated definition replaces the fall amount by `fall_speed` and puts it at y = 11. -/
theorem C6_counterexample :
    ((negFallAgent : Agent ℚ).DownMove (flatTerrain 0) 1).target_position_.y = 10 ∧
      ((negFallAgent : Agent ℚ).DownMove_spec (flatTerrain 0) 1).target_position_.y = 11 ∧
      (negFallAgent : Agent ℚ).DownMove (flatTerrain 0) 1 ≠
        (negFallAgent : Agent ℚ).DownMove_spec (flatTerrain 0) 1 := by
  have h1 : ((negFallAgent : Agent ℚ).DownMove (flatTerrain 0) 1).target_position_.y = 10 := by
    norm_num [Agent.DownMove, negFallAgent, restingAgent, flatTerrain]
  have h2 :
      ((negFallAgent : Agent ℚ).DownMove_spec (flatTerrain 0) 1).target_position_.y = 11 := by
    norm_num [Agent.DownMove_spec, Agent.specLanding, Agent.specFallAmount, negFallAgent,
      restingAgent, flatTerrain]
  refine ⟨h1, h2, fun h => ?_⟩
  rw [h] at h1
  rw [h1] at h2
  norm_num at h2

/-- C6 (amended): `Agent::DownMove` equals its specified definition once the replacement of the
fall amount carries the code's guard: with `d = max(-vertical_velocity, 0) * dt`, replaced by
`fall_speed` when `d > 0` and `d > fall_speed` and the agent is on the ground or not jumping,
it lowers `target_position` by `step_offset + d` along the up axis, samples the terrain height
`T` at the new x, z, and below `T + height` snaps y to exactly `T + height`, commits, zeroes
vertical velocity and offset and clears `jumping`; otherwise it commits the lowered position and
leaves those three unchanged. -/
theorem C6_downMove_refines_guarded_spec (terrain : Terrain F) (a : Agent F) (dt : F) :
    a.DownMove terrain dt =
      a.specLanding terrain
        (if 0 < max (-a.vertical_velocity_) 0 * dt ∧
            max (-a.vertical_velocity_) 0 * dt > a.fall_speed_ ∧
            (a.on_ground_ = true ∨ a.jumping_ = false) then a.fall_speed_
          else max (-a.vertical_velocity_) 0 * dt) :=
  DownMove_eq_specLanding terrain a dt

/-- C7: for a move vector of length > 0.001 whose candidate `target_position + forward*speed`
is not blocked, `Agent::WalkingMove` changes `target_position` if and only if `SampleSlope` at
the candidate is < 0.5 or `target_position.y` exceeds the terrain height at the candidate by
more than 4 body heights: when that gate is open the new `target_position` is exactly the old
one plus `forward*speed*dt*100` and the transform position equals it; when it is closed
`target_position` and the transform position are unchanged.  The committed step is the vector
`forward*speed*dt*100`, so for every non-zero step (every update of a moving agent with
dt > 0) the value of `target_position` differs from the old one exactly when the gate is open;
in general it differs exactly when the gate is open and the step is not the zero vector. -/
theorem C7_walk_commits_iff_gate (L : Glm F) (terrain : Terrain F) (a : Agent F) (move : Vec3 F)
    (dt : F) (hlen : length L move > 1 / 1000)
    (hfree :
      terrain.SamplePassable (a.target_position_ + a.walkForward L move * a.speed_).x
        (a.target_position_ + a.walkForward L move * a.speed_).z = false) :
    ((terrain.SampleSlope (a.target_position_ + a.walkForward L move * a.speed_).x
            (a.target_position_ + a.walkForward L move * a.speed_).z < 1 / 2 ∨
          a.target_position_.y >
            terrain.SampleHeight (a.target_position_ + a.walkForward L move * a.speed_).x
              (a.target_position_ + a.walkForward L move * a.speed_).z + 4 * a.height_) →
        (a.WalkingMove L terrain move dt).target_position_ =
            a.target_position_ + a.walkForward L move * a.speed_ * dt * (100 : F) ∧
          (a.WalkingMove L terrain move dt).transform.GetPosition =
            (a.WalkingMove L terrain move dt).target_position_) ∧
      (¬ (terrain.SampleSlope (a.target_position_ + a.walkForward L move * a.speed_).x
            (a.target_position_ + a.walkForward L move * a.speed_).z < 1 / 2 ∨
          a.target_position_.y >
            terrain.SampleHeight (a.target_position_ + a.walkForward L move * a.speed_).x
              (a.target_position_ + a.walkForward L move * a.speed_).z + 4 * a.height_) →
        (a.WalkingMove L terrain move dt).target_position_ = a.target_position_ ∧
          (a.WalkingMove L terrain move dt).transform.GetPosition = a.transform.GetPosition) ∧
      ((a.WalkingMove L terrain move dt).target_position_ ≠ a.target_position_ ↔
        (terrain.SampleSlope (a.target_position_ + a.walkForward L move * a.speed_).x
            (a.target_position_ + a.walkForward L move * a.speed_).z < 1 / 2 ∨
          a.target_position_.y >
            terrain.SampleHeight (a.target_position_ + a.walkForward L move * a.speed_).x
              (a.target_position_ + a.walkForward L move * a.speed_).z + 4 * a.height_) ∧
          a.walkForward L move * a.speed_ * dt * (100 : F) ≠ Vec3.zero) ∧
      (a.walkForward L move * a.speed_ * dt * (100 : F) ≠ Vec3.zero →
        ((a.WalkingMove L terrain move dt).target_position_ ≠ a.target_position_ ↔
          (terrain.SampleSlope (a.target_position_ + a.walkForward L move * a.speed_).x
              (a.target_position_ + a.walkForward L move * a.speed_).z < 1 / 2 ∨
            a.target_position_.y >
              terrain.SampleHeight (a.target_position_ + a.walkForward L move * a.speed_).x
                (a.target_position_ + a.walkForward L move * a.speed_).z + 4 * a.height_))) := by
  have h := WalkingMove_free L terrain a move dt hlen hfree
  unfold Agent.walkCandidate at h
  rw [mul_comm (4 : F) a.height_, h]
  have hchange :
      ((if terrain.SampleSlope (a.target_position_ + a.walkForward L move * a.speed_).x
              (a.target_position_ + a.walkForward L move * a.speed_).z < 1 / 2 ∨
            a.target_position_.y >
              terrain.SampleHeight (a.target_position_ + a.walkForward L move * a.speed_).x
                (a.target_position_ + a.walkForward L move * a.speed_).z + a.height_ * 4 then
          { a with
            target_position_ :=
              a.target_position_ + a.walkForward L move * a.speed_ * dt * (100 : F)
            transform := a.transform.SetPosition
              (a.target_position_ + a.walkForward L move * a.speed_ * dt * (100 : F)) }
        else a).target_position_ ≠ a.target_position_ ↔
        (terrain.SampleSlope (a.target_position_ + a.walkForward L move * a.speed_).x
            (a.target_position_ + a.walkForward L move * a.speed_).z < 1 / 2 ∨
          a.target_position_.y >
            terrain.SampleHeight (a.target_position_ + a.walkForward L move * a.speed_).x
              (a.target_position_ + a.walkForward L move * a.speed_).z + a.height_ * 4) ∧
          a.walkForward L move * a.speed_ * dt * (100 : F) ≠ Vec3.zero) := by
    split_ifs with hg
    · show a.target_position_ + a.walkForward L move * a.speed_ * dt * (100 : F) ≠
          a.target_position_ ↔ _
      rw [Ne, Vec3.add_eq_self_iff]
      exact ⟨fun hne => ⟨hg, hne⟩, fun hne => hne.2⟩
    · exact ⟨fun hne => absurd rfl hne, fun hne => absurd hne.1 hg⟩
  refine ⟨fun hg => ?_, fun hg => ?_, hchange, fun hstep => ?_⟩
  · rw [if_pos hg]
    exact ⟨rfl, rfl⟩
  · rw [if_neg hg]
    exact ⟨rfl, rfl⟩
  · exact ⟨fun hne => (hchange.mp hne).1, fun hg => hchange.mpr ⟨hg, hstep⟩⟩

/-- Witness of C7: the resting agent walks one fiftieth of a second along x on flat free ground;
the gate is open (slope 0), the step `(2, 0, 0)` is not zero, the step is committed and
`target_position` changes. -/
theorem C7_walk_commits_iff_gate_witness :
    length realGlm (⟨1, 0, 0⟩ : Vec3 ℝ) > 1 / 1000 ∧
      (restingAgent (1 : ℝ)).walkForward realGlm ⟨1, 0, 0⟩ * (restingAgent (1 : ℝ)).speed_ *
          ((1 : ℝ) / 50) * (100 : ℝ) ≠ Vec3.zero ∧
      ((restingAgent (1 : ℝ)).WalkingMove realGlm (flatTerrain 0) ⟨1, 0, 0⟩
          ((1 : ℝ) / 50)).target_position_ =
        (restingAgent (1 : ℝ)).target_position_ +
          (restingAgent (1 : ℝ)).walkForward realGlm ⟨1, 0, 0⟩ * (restingAgent (1 : ℝ)).speed_ *
            ((1 : ℝ) / 50) * (100 : ℝ) ∧
      ((restingAgent (1 : ℝ)).WalkingMove realGlm (flatTerrain 0) ⟨1, 0, 0⟩
          ((1 : ℝ) / 50)).target_position_ ≠ (restingAgent (1 : ℝ)).target_position_ := by
  have hlen : length realGlm (⟨1, 0, 0⟩ : Vec3 ℝ) > 1 / 1000 := by
    norm_num [length, dot, realGlm]
  have hstep : (restingAgent (1 : ℝ)).walkForward realGlm ⟨1, 0, 0⟩ *
      (restingAgent (1 : ℝ)).speed_ * ((1 : ℝ) / 50) * (100 : ℝ) ≠ Vec3.zero := by
    rw [restingAgent_walkForward]
    norm_num [restingAgent, Vec3.ext_iff3, Vec3.zero]
  have h := C7_walk_commits_iff_gate realGlm (flatTerrain 0) (restingAgent (1 : ℝ)) ⟨1, 0, 0⟩
    (1 / 50) hlen rfl
  have hgate : (flatTerrain (0 : ℝ)).SampleSlope
        ((restingAgent (1 : ℝ)).target_position_ +
          (restingAgent (1 : ℝ)).walkForward realGlm ⟨1, 0, 0⟩ * (restingAgent (1 : ℝ)).speed_).x
        ((restingAgent (1 : ℝ)).target_position_ +
          (restingAgent (1 : ℝ)).walkForward realGlm ⟨1, 0, 0⟩ * (restingAgent (1 : ℝ)).speed_).z
          < 1 / 2 ∨
      (restingAgent (1 : ℝ)).target_position_.y >
        (flatTerrain (0 : ℝ)).SampleHeight
            ((restingAgent (1 : ℝ)).target_position_ +
              (restingAgent (1 : ℝ)).walkForward realGlm ⟨1, 0, 0⟩ *
                (restingAgent (1 : ℝ)).speed_).x
            ((restingAgent (1 : ℝ)).target_position_ +
              (restingAgent (1 : ℝ)).walkForward realGlm ⟨1, 0, 0⟩ *
                (restingAgent (1 : ℝ)).speed_).z + 4 * (restingAgent (1 : ℝ)).height_ :=
    Or.inl (by norm_num [flatTerrain])
  exact ⟨hlen, hstep, (h.1 hgate).1, (h.2.2.2 hstep).mpr hgate⟩

/-- C8 fails on the code: at dt = 1/50 the resting agent (speed 1) walking along x probes the
free candidate x = 1, then commits `target_position` x = 2, a place where `SamplePassable`
returns true. -/
theorem C8_commit_enters_blocked_cell :
    length realGlm (⟨1, 0, 0⟩ : Vec3 ℝ) > 1 / 1000 ∧
      (restingAgent (1 : ℝ)).walkCandidate realGlm ⟨1, 0, 0⟩ = ⟨1, 1, 0⟩ ∧
      (wallTerrain : Terrain ℝ).SamplePassable 1 0 = false ∧
      ((restingAgent (1 : ℝ)).WalkingMove realGlm wallTerrain ⟨1, 0, 0⟩ (1 / 50)).target_position_
        = ⟨2, 1, 0⟩ ∧
      ((restingAgent (1 : ℝ)).WalkingMove realGlm wallTerrain ⟨1, 0, 0⟩
        (1 / 50)).transform.GetPosition = ⟨2, 1, 0⟩ ∧
      (wallTerrain : Terrain ℝ).SamplePassable 2 0 = true := by
  have hlen : length realGlm (⟨1, 0, 0⟩ : Vec3 ℝ) > 1 / 1000 := by
    norm_num [length, dot, realGlm]
  have hcand : (restingAgent (1 : ℝ)).walkCandidate realGlm ⟨1, 0, 0⟩ = ⟨1, 1, 0⟩ := by
    rw [Agent.walkCandidate, restingAgent_walkForward]
    simp [restingAgent, Vec3.ext_iff3]
  have hfree : (wallTerrain : Terrain ℝ).SamplePassable 1 0 = false := by
    simp [wallTerrain]
    norm_num
  have hblocked : (wallTerrain : Terrain ℝ).SamplePassable 2 0 = true := by
    simp [wallTerrain]
    norm_num
  have hmove := WalkingMove_free realGlm wallTerrain (restingAgent (1 : ℝ)) ⟨1, 0, 0⟩ (1 / 50)
    hlen (by rw [hcand]; exact hfree)
  rw [hcand, restingAgent_walkForward] at hmove
  refine ⟨hlen, hcand, hfree, ?_, ?_, hblocked⟩
  · rw [hmove]
    simp [wallTerrain, restingAgent, Vec3.ext_iff3]
    norm_num
  · rw [hmove]
    simp [wallTerrain, restingAgent, Vec3.ext_iff3, Transform.GetPosition,
      Transform.SetPosition]
    norm_num

/-- C9: for dt > 0 and `movement_damping` in (0, 1) the damping step of `Agent::Update`
multiplies the vertical velocity by `(1 - movement_damping)^dt`; the result is no larger in
absolute value (strictly smaller for a non-zero velocity) and keeps the sign; the horizontal
`walk_direction` components are damped the same way; and under repeated damping steps the
absolute vertical velocity is non-increasing and the velocity tends to zero. -/
theorem C9_damping_shrinks_velocity (a : Agent ℝ) (dt : ℝ) (hdt : 0 < dt)
    (hd0 : 0 < a.movement_damping_) (hd1 : a.movement_damping_ < 1) :
    (a.dampingStep realGlm dt).vertical_velocity_ =
        a.vertical_velocity_ * (1 - a.movement_damping_) ^ dt ∧
      |(a.dampingStep realGlm dt).vertical_velocity_| ≤ |a.vertical_velocity_| ∧
      (a.vertical_velocity_ ≠ 0 →
        |(a.dampingStep realGlm dt).vertical_velocity_| < |a.vertical_velocity_|) ∧
      (0 < a.vertical_velocity_ → 0 < (a.dampingStep realGlm dt).vertical_velocity_) ∧
      (a.vertical_velocity_ < 0 → (a.dampingStep realGlm dt).vertical_velocity_ < 0) ∧
      (a.vertical_velocity_ = 0 → (a.dampingStep realGlm dt).vertical_velocity_ = 0) ∧
      (|(a.dampingStep realGlm dt).walk_direction_.x| ≤ |a.walk_direction_.x| ∧
        |(a.dampingStep realGlm dt).walk_direction_.y| ≤ |a.walk_direction_.y| ∧
        |(a.dampingStep realGlm dt).walk_direction_.z| ≤ |a.walk_direction_.z| ∧
        0 ≤ a.walk_direction_.x * (a.dampingStep realGlm dt).walk_direction_.x ∧
        0 ≤ a.walk_direction_.y * (a.dampingStep realGlm dt).walk_direction_.y ∧
        0 ≤ a.walk_direction_.z * (a.dampingStep realGlm dt).walk_direction_.z) ∧
      Antitone (fun n : ℕ =>
        |((fun s : Agent ℝ => s.dampingStep realGlm dt)^[n] a).vertical_velocity_|) ∧
      Filter.Tendsto (fun n : ℕ =>
        ((fun s : Agent ℝ => s.dampingStep realGlm dt)^[n] a).vertical_velocity_)
        Filter.atTop (nhds 0) := by
  have hq0 : 0 < (1 - a.movement_damping_) ^ dt := Real.rpow_pos_of_pos (by linarith) dt
  have hq1 : (1 - a.movement_damping_) ^ dt < 1 :=
    Real.rpow_lt_one (by linarith) (by linarith) hdt
  have hpow : realGlm.pow (1 - a.movement_damping_) dt = (1 - a.movement_damping_) ^ dt := rfl
  have hv := dampingStep_vertical_velocity realGlm a dt
  rw [hpow] at hv
  have hw := dampingStep_walk_direction realGlm a dt
  rw [hpow] at hw
  have hshrink : ∀ x : ℝ, |x * (1 - a.movement_damping_) ^ dt| ≤ |x| := by
    intro x
    rw [abs_mul, abs_of_pos hq0]
    exact mul_le_of_le_one_right (abs_nonneg x) hq1.le
  have hsign : ∀ x : ℝ, 0 ≤ x * (x * (1 - a.movement_damping_) ^ dt) := by
    intro x
    have := mul_nonneg (mul_self_nonneg x) hq0.le
    calc (0 : ℝ) ≤ x * x * (1 - a.movement_damping_) ^ dt := this
      _ = x * (x * (1 - a.movement_damping_) ^ dt) := by ring
  refine ⟨hv, ?_, ?_, ?_, ?_, ?_, ?_, ?_, ?_⟩
  · rw [hv]
    exact hshrink _
  · intro hne
    rw [hv, abs_mul, abs_of_pos hq0]
    exact mul_lt_of_lt_one_right (abs_pos.mpr hne) hq1
  · intro hpos
    rw [hv]
    exact mul_pos hpos hq0
  · intro hneg
    rw [hv]
    exact mul_neg_of_neg_of_pos hneg hq0
  · intro hz
    rw [hv, hz, zero_mul]
  · rw [hw]
    split_ifs
    · exact ⟨hshrink _, hshrink _, hshrink _, hsign _, hsign _, hsign _⟩
    · exact ⟨le_refl _, le_refl _, le_refl _, mul_self_nonneg _, mul_self_nonneg _,
        mul_self_nonneg _⟩
  · refine antitone_nat_of_succ_le (fun n => ?_)
    show |((fun s : Agent ℝ => s.dampingStep realGlm dt)^[n + 1] a).vertical_velocity_| ≤
      |((fun s : Agent ℝ => s.dampingStep realGlm dt)^[n] a).vertical_velocity_|
    rw [(dampingStep_iterate realGlm a dt (n + 1)).2, (dampingStep_iterate realGlm a dt n).2,
      hpow, pow_succ, ← mul_assoc]
    rw [abs_mul (a.vertical_velocity_ * ((1 - a.movement_damping_) ^ dt) ^ n),
      abs_of_pos hq0]
    exact mul_le_of_le_one_right (abs_nonneg _) hq1.le
  · have hlim := (tendsto_pow_atTop_nhds_zero_of_lt_one hq0.le hq1).const_mul
      a.vertical_velocity_
    rw [mul_zero] at hlim
    refine hlim.congr (fun n => ?_)
    rw [(dampingStep_iterate realGlm a dt n).2, hpow]

/-- Witness of C9: the falling example agent (vertical velocity -4, damping 1/2) over one
second; its speed strictly shrinks. -/
theorem C9_damping_shrinks_velocity_witness :
    (0 : ℝ) < 1 ∧ (0 : ℝ) < (fallingAgent : Agent ℝ).movement_damping_ ∧
      (fallingAgent : Agent ℝ).movement_damping_ < 1 ∧
      |((fallingAgent : Agent ℝ).dampingStep realGlm 1).vertical_velocity_| <
        |(fallingAgent : Agent ℝ).vertical_velocity_| :=
  ⟨one_pos, by norm_num [fallingAgent, restingAgent], by norm_num [fallingAgent, restingAgent],
    (C9_damping_shrinks_velocity (fallingAgent : Agent ℝ) 1 one_pos
      (by norm_num [fallingAgent, restingAgent])
      (by norm_num [fallingAgent, restingAgent])).2.2.1 (by norm_num [fallingAgent, restingAgent])⟩

/-- C10: when the active beacon index `i` is not the last one, `Game::CheckCollisions` completes
and, if the distance between the player and beacon `i` is below
`player_hitbox + beacon_hitbox`, makes the active index exactly `i + 1`, clears the inverted
flag of beacon `i` and sets the one of beacon `i + 1`; if the distance is not below the
threshold, the index and all beacons are unchanged. -/
theorem C10_beacon_hit_advances_index (L : Glm F) (g : Game F)
    (hidx : g.active_beacon_index + 1 < g.beacons.length) :
    ∃ g', g.CheckCollisions L = some g' ∧
      (if length L (g.player.transform.position -
            (g.beacons.get ⟨g.active_beacon_index, Nat.lt_of_succ_lt hidx⟩).transform.position) <
          player_hitbox_g + beacon_hitbox_g then
        g'.active_beacon_index = g.active_beacon_index + 1 ∧
          (g'.beacons[g.active_beacon_index]?).map (fun n => n.inverted) = some false ∧
          (g'.beacons[g.active_beacon_index + 1]?).map (fun n => n.inverted) = some true
      else
        g'.active_beacon_index = g.active_beacon_index ∧ g'.beacons = g.beacons) := by
  obtain ⟨g1, h1, hprop⟩ := checkBeacons_not_last L g hidx
  obtain ⟨g2, h2, hbe, hix⟩ := CheckCollisions_beacons L g g1 h1
  refine ⟨g2, h2, ?_⟩
  rw [hbe, hix]
  exact hprop

/-- Witness of C10: the player is at distance 10 from the active beacon, which is below the
threshold 15.5, so the collision fires: the index goes from 0 to 1, beacon 0 is no longer
inverted and beacon 1 is. -/
theorem C10_beacon_hit_advances_index_witness :
    (twoBeaconGame : Game ℝ).active_beacon_index + 1 < (twoBeaconGame : Game ℝ).beacons.length ∧
      length realGlm ((twoBeaconGame : Game ℝ).player.transform.position -
        (⟨0, 0, 0⟩ : Vec3 ℝ)) = 10 ∧
      ∃ g', (twoBeaconGame : Game ℝ).CheckCollisions realGlm = some g' ∧
        g'.active_beacon_index = 1 ∧
        (g'.beacons[0]?).map (fun n => n.inverted) = some false ∧
        (g'.beacons[1]?).map (fun n => n.inverted) = some true := by
  have hidx : (twoBeaconGame : Game ℝ).active_beacon_index + 1 <
      (twoBeaconGame : Game ℝ).beacons.length := by
    simp [twoBeaconGame]
  have hten : length realGlm ((twoBeaconGame : Game ℝ).player.transform.position -
      (⟨0, 0, 0⟩ : Vec3 ℝ)) = 10 := by
    show Real.sqrt (dot _ _) = 10
    have h100 : dot ((twoBeaconGame : Game ℝ).player.transform.position - (⟨0, 0, 0⟩ : Vec3 ℝ))
        ((twoBeaconGame : Game ℝ).player.transform.position - (⟨0, 0, 0⟩ : Vec3 ℝ))
          = 10 * 10 := by
      norm_num [dot, twoBeaconGame]
    rw [h100, Real.sqrt_mul_self (by norm_num)]
  obtain ⟨g', hg, hprop⟩ := C10_beacon_hit_advances_index realGlm (twoBeaconGame : Game ℝ) hidx
  have hfire : length realGlm ((twoBeaconGame : Game ℝ).player.transform.position -
      ((twoBeaconGame : Game ℝ).beacons.get ⟨(twoBeaconGame : Game ℝ).active_beacon_index,
        Nat.lt_of_succ_lt hidx⟩).transform.position) < player_hitbox_g + beacon_hitbox_g := by
    have : ((twoBeaconGame : Game ℝ).beacons.get ⟨(twoBeaconGame : Game ℝ).active_beacon_index,
        Nat.lt_of_succ_lt hidx⟩).transform.position = (⟨0, 0, 0⟩ : Vec3 ℝ) := rfl
    rw [this, hten]
    norm_num [player_hitbox_g, beacon_hitbox_g]
  rw [if_pos hfire] at hprop
  exact ⟨hidx, hten, g', hg, hprop⟩

/-- C11 fails on the code.  In the course with a single beacon the active index 0 is the last
one and the player is at distance 10 from it, below the threshold 15.5.  The call signals the
win (green background, the line WINNER!) and makes the index 1, the size of the beacon vector;
the write `beacons[active_beacon_index]->inverted = 1` of line 256 is then out of bounds, so
the call does not complete normally. -/
theorem C11_last_beacon_hit_runs_out_of_bounds :
    (lastBeaconGame : Game ℝ).active_beacon_index + 1 = (lastBeaconGame : Game ℝ).beacons.length ∧
      (lastBeaconGame : Game ℝ).beacons[(lastBeaconGame : Game ℝ).active_beacon_index]? =
        some originBeacon ∧
      length realGlm ((lastBeaconGame : Game ℝ).player.transform.position -
        (originBeacon : SceneNode ℝ).transform.position) = 10 ∧
      ((lastBeaconGame : Game ℝ).beaconHit originBeacon).background = ⟨0, 1, 0⟩ ∧
      ((lastBeaconGame : Game ℝ).beaconHit originBeacon).console = ["WINNER!"] ∧
      ((lastBeaconGame : Game ℝ).beaconHit originBeacon).active_beacon_index = 1 ∧
      ((lastBeaconGame : Game ℝ).beaconHit originBeacon).beacons[
        ((lastBeaconGame : Game ℝ).beaconHit originBeacon).active_beacon_index]? = none ∧
      (lastBeaconGame : Game ℝ).CheckCollisions realGlm = none := by
  have hten : length realGlm ((lastBeaconGame : Game ℝ).player.transform.position -
      (originBeacon : SceneNode ℝ).transform.position) = 10 := by
    show Real.sqrt (dot _ _) = 10
    have h100 : dot ((lastBeaconGame : Game ℝ).player.transform.position -
        (originBeacon : SceneNode ℝ).transform.position)
        ((lastBeaconGame : Game ℝ).player.transform.position -
          (originBeacon : SceneNode ℝ).transform.position) = 10 * 10 := by
      norm_num [dot, lastBeaconGame, twoBeaconGame, originBeacon]
    rw [h100, Real.sqrt_mul_self (by norm_num)]
  obtain ⟨hbg, hco, hix, hnone, -, hcc⟩ := checkBeacons_last_hit realGlm
    (lastBeaconGame : Game ℝ) originBeacon rfl rfl
    (by rw [hten]; norm_num [player_hitbox_g, beacon_hitbox_g])
  exact ⟨rfl, rfl, hten, hbg, hco, hix, hnone, hcc⟩

/-- C12: for every game state whose beacon check completes, with `E` the number of active
enemies at distance below `player_hitbox + enemy_hitbox` from the player and `P` the number of
active powerups at distance below `player_hitbox + powerup_hitbox`, `Game::CheckCollisions`
completes and afterwards the lives are `lives_before - E + P`, the speed is
`speed_before - 0.5*E + 0.5*P`, each enemy is itself with `active` cleared if it was hit and
untouched otherwise, each powerup likewise (a hit one also loses `inverted`), so no entity goes
from inactive to active; no enemy or powerup is left that would be hit, and an immediately
repeated call that completes changes lives and speed by zero. -/
theorem C12_entity_hits_are_one_shot (L : Glm F) (g g1 : Game F)
    (hb : g.checkBeacons L = some g1) :
    ∃ g', g.CheckCollisions L = some g' ∧
      g'.player.lives =
        g.player.lives - (g.enemies.countP (enemyHit L g.player.transform.position) : ℕ) +
          (g.powerups.countP (powerupHit L g.player.transform.position) : ℕ) ∧
      g'.player.move_speed =
        g.player.move_speed -
            1 / 2 * (g.enemies.countP (enemyHit L g.player.transform.position) : ℕ) +
          1 / 2 * (g.powerups.countP (powerupHit L g.player.transform.position) : ℕ) ∧
      g'.enemies = g.enemies.map (fun e =>
        if enemyHit L g.player.transform.position e then { e with active := false } else e) ∧
      g'.powerups = g.powerups.map (fun e =>
        if powerupHit L g.player.transform.position e then
          { e with active := false, inverted := false } else e) ∧
      g'.enemies.countP (enemyHit L g'.player.transform.position) = 0 ∧
      g'.powerups.countP (powerupHit L g'.player.transform.position) = 0 ∧
      (∀ g'', g'.CheckCollisions L = some g'' →
        g''.player.lives = g'.player.lives ∧ g''.player.move_speed = g'.player.move_speed) := by
  obtain ⟨g', hcc, ht, hl, hs, he, hp, -, -⟩ := CheckCollisions_spec L g g1 hb
  have hE0 : g'.enemies.countP (enemyHit L g'.player.transform.position) = 0 := by
    rw [he, ht]
    exact countP_enemyHit_after L _ _
  have hP0 : g'.powerups.countP (powerupHit L g'.player.transform.position) = 0 := by
    rw [hp, ht]
    exact countP_powerupHit_after L _ _
  refine ⟨g', hcc, hl, ?_, he, hp, hE0, hP0, ?_⟩
  · rw [hs]
    unfold speed_upgrade_g
    rfl
  · intro g'' h2
    have hb2 : ∃ g1', g'.checkBeacons L = some g1' := by
      unfold Game.CheckCollisions at h2
      cases hcb : g'.checkBeacons L with
      | none =>
        rw [hcb] at h2
        exact absurd h2 (by simp)
      | some g1' => exact ⟨g1', rfl⟩
    obtain ⟨g1', hb2'⟩ := hb2
    obtain ⟨g3, hcc3, -, hl3, hs3, -, -, -, -⟩ := CheckCollisions_spec L g' g1' hb2'
    rw [hcc3] at h2
    have h32 : g3 = g'' := Option.some.inj h2
    rw [← h32, hl3, hs3, hE0, hP0]
    simp

/-- Witness of C12: the skirmish course (beacon check on the first of two beacons, which
completes). -/
theorem C12_entity_hits_are_one_shot_witness :
    ∃ g1 g', (skirmishGame : Game ℝ).checkBeacons realGlm = some g1 ∧
      (skirmishGame : Game ℝ).CheckCollisions realGlm = some g' ∧
      g'.player.lives =
        (skirmishGame : Game ℝ).player.lives -
          ((skirmishGame : Game ℝ).enemies.countP
            (enemyHit realGlm (skirmishGame : Game ℝ).player.transform.position) : ℕ) +
          ((skirmishGame : Game ℝ).powerups.countP
            (powerupHit realGlm (skirmishGame : Game ℝ).player.transform.position) : ℕ) ∧
      g'.enemies.countP (enemyHit realGlm g'.player.transform.position) = 0 := by
  obtain ⟨g1, h1, -⟩ := checkBeacons_not_last realGlm (skirmishGame : Game ℝ)
    (by simp [skirmishGame, twoBeaconGame])
  obtain ⟨g', hcc, hl, -, -, -, hE0, -, -⟩ :=
    C12_entity_hits_are_one_shot realGlm (skirmishGame : Game ℝ) g1 h1
  exact ⟨g1, g', h1, hcc, hl, hE0⟩

/-- C14 fails on the code.  A rising agent (vertical velocity 5, step height 1/2) on free flat
ground: in one update of a fiftieth of a second `UpMove` adds the step height 1/2 and the
vertical offset 12/125 to y = 1, but records the step offset 0, so `DownMove` subtracts nothing
and the agent ends at 1 + 12/125 + 1/2.  An agent whose step-up is blocked keeps the step
offset 1/2 of an earlier update, and `DownMove` lowers it by 1/2 + 1/250 from y = 10 although
`UpMove` added nothing. -/
theorem C14_step_up_not_cancelled :
    ((risingAgent : Agent ℝ).Update realGlm (1 / 1000) (flatTerrain 0) (1 / 50)).step_offset_
        = 0 ∧
      ((risingAgent : Agent ℝ).Update realGlm (1 / 1000) (flatTerrain 0)
        (1 / 50)).transform.position.y = 1 + 12 / 125 + 1 / 2 ∧
      ((staleStepAgent : Agent ℝ).Update realGlm (1 / 1000) blockedTerrain (1 / 50)).step_offset_
        = 1 / 2 ∧
      ((staleStepAgent : Agent ℝ).Update realGlm (1 / 1000) blockedTerrain
        (1 / 50)).transform.position.y = 10 - (1 / 2 + 1 / 250) := by
  have hrise : (((risingAgent : Agent ℝ).dampingStep realGlm (1 / 50)).gravityStep
      (1 / 50)).vertical_velocity_ = 24 / 5 := by
    rw [velocity_after_gravity]
    norm_num [risingAgent, restingAgent, realGlm]
  have hstale : (((staleStepAgent : Agent ℝ).dampingStep realGlm (1 / 50)).gravityStep
      (1 / 50)).vertical_velocity_ = -(1 / 5) := by
    rw [velocity_after_gravity]
    norm_num [staleStepAgent, restingAgent, realGlm]
    rw [abs_of_pos (by norm_num)]
    norm_num
  obtain ⟨b, hU, hT, hJ, hV, -, hC⟩ := Update_idle realGlm (1 / 1000) (flatTerrain 0)
    (risingAgent : Agent ℝ) (1 / 50) Real.sqrt_zero rfl rfl rfl rfl
  obtain ⟨c, hU2, hT2, hJ2, hV2, -, hC2⟩ := Update_idle realGlm (1 / 1000) blockedTerrain
    (staleStepAgent : Agent ℝ) (1 / 50) Real.sqrt_zero rfl rfl rfl rfl
  rw [hrise] at hV hC
  rw [hstale] at hV2 hC2
  simp only [Agent.tunables, Prod.mk.injEq] at hT hT2
  obtain ⟨-, -, -, -, hup, -, hh, -, hfs, -, -, -, -⟩ := hT
  obtain ⟨-, -, -, -, hup2, -, hh2, -, hfs2, -, -, -, -⟩ := hT2
  rw [if_neg (by simp [flatTerrain])] at hC
  rw [if_pos (by simp [blockedTerrain])] at hC2
  obtain ⟨hp, hs⟩ := hC
  obtain ⟨hp2, hs2⟩ := hC2
  rw [if_neg (by norm_num)] at hs
  refine ⟨?_, ?_, ?_, ?_⟩
  · rw [hU, DownMove_step_offset, hs]
  · rw [hU, DownMove_position_y, hV, hJ, hfs, hup, hh, hp, hs]
    norm_num [risingAgent, restingAgent, flatTerrain, Transform.GetPosition]
  · rw [hU2, DownMove_step_offset, hs2]
    norm_num [staleStepAgent, restingAgent]
  · rw [hU2, DownMove_position_y, hV2, hJ2, hfs2, hup2, hh2, hp2, hs2]
    norm_num [staleStepAgent, restingAgent, blockedTerrain]

/-- C15 as stated fails: for the falling example agent (vertical velocity -4, step height 1/2,
at y = 3) the stated candidate has no step-height contribution and is `(0, 3, 0)`, which is
free, but `UpMove` moves `target_position` and the transform to `(0, 7/2, 0)`: the code adds the
step height to the candidate while the agent is falling. -/
theorem C15_counterexample :
    (fallingAgent : Agent ℚ).vertical_velocity_ < 0 ∧
      (fallingAgent : Agent ℚ).upCandidate_spec = ⟨0, 3, 0⟩ ∧
      (flatTerrain (0 : ℚ)).SamplePassable (fallingAgent : Agent ℚ).upCandidate_spec.x
        (fallingAgent : Agent ℚ).upCandidate_spec.z = false ∧
      ((fallingAgent : Agent ℚ).UpMove (flatTerrain 0) (1 / 50)).target_position_
        = ⟨0, 7 / 2, 0⟩ ∧
      ((fallingAgent : Agent ℚ).UpMove (flatTerrain 0) (1 / 50)).target_position_ ≠
        (fallingAgent : Agent ℚ).upCandidate_spec := by
  have h1 : (fallingAgent : Agent ℚ).upCandidate_spec = ⟨0, 3, 0⟩ := by
    norm_num [Agent.upCandidate_spec, fallingAgent, restingAgent, Transform.GetPosition,
      Vec3.ext_iff3]
  have h2 : ((fallingAgent : Agent ℚ).UpMove (flatTerrain 0) (1 / 50)).target_position_
      = ⟨0, 7 / 2, 0⟩ := by
    rw [UpMove_eq, if_neg (by simp [flatTerrain])]
    norm_num [Agent.upCandidate, fallingAgent, restingAgent, Transform.GetPosition,
      Vec3.ext_iff3]
  refine ⟨by norm_num [fallingAgent, restingAgent], h1, rfl, h2, ?_⟩
  rw [h1, h2]
  norm_num [Vec3.ext_iff3]

/-- C15 (amended): for every agent state that is falling (`vertical_velocity < 0`), the
candidate position of `Agent::UpMove` is the transform position plus `up * step_height` plus
`jump_axis * max(vertical_offset, 0)`; if the planar coordinates of the candidate are blocked,
`target_position`, the transform position and the recorded step offset are unchanged, otherwise
the candidate becomes both `target_position` and the transform position and the recorded step
offset is `step_height`. -/
theorem C15_step_up_candidate_when_falling (terrain : Terrain F) (a : Agent F) (dt : F)
    (hv : a.vertical_velocity_ < 0) :
    if terrain.SamplePassable
        (a.transform.GetPosition + a.up_ * a.step_height_ +
          a.jump_axis_ * max a.vertical_offset_ 0).x
        (a.transform.GetPosition + a.up_ * a.step_height_ +
          a.jump_axis_ * max a.vertical_offset_ 0).z then
      (a.UpMove terrain dt).target_position_ = a.target_position_ ∧
        (a.UpMove terrain dt).transform.GetPosition = a.transform.GetPosition ∧
        (a.UpMove terrain dt).step_offset_ = a.step_offset_
    else
      (a.UpMove terrain dt).target_position_ =
          a.transform.GetPosition + a.up_ * a.step_height_ +
            a.jump_axis_ * max a.vertical_offset_ 0 ∧
        (a.UpMove terrain dt).transform.GetPosition =
          a.transform.GetPosition + a.up_ * a.step_height_ +
            a.jump_axis_ * max a.vertical_offset_ 0 ∧
        (a.UpMove terrain dt).step_offset_ = a.step_height_ := by
  have hc : a.upCandidate =
      a.transform.GetPosition + a.up_ * a.step_height_ +
        a.jump_axis_ * max a.vertical_offset_ 0 := by
    unfold Agent.upCandidate
    rw [pos_part_eq_max]
  rw [UpMove_eq, hc]
  by_cases hb : terrain.SamplePassable
      (a.transform.GetPosition + a.up_ * a.step_height_ +
        a.jump_axis_ * max a.vertical_offset_ 0).x
      (a.transform.GetPosition + a.up_ * a.step_height_ +
        a.jump_axis_ * max a.vertical_offset_ 0).z = true
  · rw [if_pos hb, if_pos hb]
    exact ⟨rfl, rfl, rfl⟩
  · rw [if_neg hb, if_neg hb]
    exact ⟨rfl, rfl, if_pos hv⟩

/-- Witness of C15: the falling example agent on free flat ground steps up from y = 3 to
y = 7/2. -/
theorem C15_step_up_candidate_when_falling_witness :
    (fallingAgent : Agent ℚ).vertical_velocity_ < 0 ∧
      ((fallingAgent : Agent ℚ).UpMove (flatTerrain 0) (1 / 50)).target_position_ =
        (fallingAgent : Agent ℚ).transform.GetPosition +
          (fallingAgent : Agent ℚ).up_ * (fallingAgent : Agent ℚ).step_height_ +
          (fallingAgent : Agent ℚ).jump_axis_ * max (fallingAgent : Agent ℚ).vertical_offset_ 0 := by
  have h := C15_step_up_candidate_when_falling (flatTerrain (0 : ℚ)) (fallingAgent : Agent ℚ)
    (1 / 50) (by norm_num [fallingAgent, restingAgent])
  rw [if_neg (by simp [flatTerrain])] at h
  exact ⟨by norm_num [fallingAgent, restingAgent], h.1⟩

/-- C16 as stated fails: the example agent that has just landed (transform and target y = 1, body
height 1, previous frame y = 3) is exactly at the contact height of ground 0;
`DownCollision(0)` fires and moves the transform to y = 3, two units away from the contact
height. -/
theorem C16_counterexample :
    (landedAgent : Agent ℚ).target_position_.y ≤ 0 + (landedAgent : Agent ℚ).height_ ∧
      (landedAgent : Agent ℚ).transform.GetPosition.y = 1 ∧
      ((landedAgent : Agent ℚ).DownCollision 0).transform.GetPosition.y = 3 ∧
      ¬ (|((landedAgent : Agent ℚ).DownCollision 0).transform.GetPosition.y -
            (0 + (landedAgent : Agent ℚ).height_)| ≤
          |(landedAgent : Agent ℚ).transform.GetPosition.y -
            (0 + (landedAgent : Agent ℚ).height_)|) := by
  have h3 : ((landedAgent : Agent ℚ).DownCollision 0).transform.GetPosition.y = 3 := by
    norm_num [Agent.DownCollision, landedAgent, restingAgent, Transform.GetPosition,
      Transform.SetPosition, mix]
  refine ⟨by norm_num [landedAgent, restingAgent], rfl, h3, ?_⟩
  rw [h3]
  norm_num [landedAgent, restingAgent, Transform.GetPosition]

/-- C16 (amended): whenever `Agent::DownCollision(groundY)` fires
(`target_position.y <= groundY + height`), the x and z of the transform are unchanged, the
resulting y is the blend `prev_position.y * (1 - f) + y * f` of the previous frame's y and the
transform's y with `f = (y - (groundY + height)) / 2`, and vertical velocity and offset are zero
and `jumping` is cleared; when it does not fire, the agent state is unchanged. -/
theorem C16_down_collision_blends_with_previous (a : Agent F) (collision_point_y : F) :
    if a.target_position_.y ≤ collision_point_y + a.height_ then
      (a.DownCollision collision_point_y).transform.GetPosition.x = a.transform.GetPosition.x ∧
        (a.DownCollision collision_point_y).transform.GetPosition.z =
          a.transform.GetPosition.z ∧
        (a.DownCollision collision_point_y).transform.GetPosition.y =
          a.prev_position_.y *
              (1 - (a.transform.GetPosition.y - (collision_point_y + a.height_)) / 2) +
            a.transform.GetPosition.y *
              ((a.transform.GetPosition.y - (collision_point_y + a.height_)) / 2) ∧
        (a.DownCollision collision_point_y).vertical_velocity_ = 0 ∧
        (a.DownCollision collision_point_y).vertical_offset_ = 0 ∧
        (a.DownCollision collision_point_y).jumping_ = false
    else
      a.DownCollision collision_point_y = a := by
  by_cases hfire : a.target_position_.y ≤ collision_point_y + a.height_
  · rw [if_pos hfire]
    have hy : (a.DownCollision collision_point_y).transform.GetPosition.y =
        a.prev_position_.y *
            (1 - (a.transform.GetPosition.y - (collision_point_y + a.height_)) / 2) +
          a.transform.GetPosition.y *
            ((a.transform.GetPosition.y - (collision_point_y + a.height_)) / 2) := by
      unfold Agent.DownCollision
      rw [if_pos hfire]
      show mix _ _ _ = _
      unfold mix
      ring
    refine ⟨?_, ?_, hy, ?_, ?_, ?_⟩
    · unfold Agent.DownCollision
      rw [if_pos hfire]
      rfl
    · unfold Agent.DownCollision
      rw [if_pos hfire]
      rfl
    · unfold Agent.DownCollision
      rw [if_pos hfire]
    · unfold Agent.DownCollision
      rw [if_pos hfire]
    · unfold Agent.DownCollision
      rw [if_pos hfire]
  · rw [if_neg hfire]
    unfold Agent.DownCollision
    rw [if_neg hfire]

/-- C17: floor invariant.  For every agent state, dt and terrain, after `Agent::DownMove`, and
therefore after every `Agent::Update` (whatever `UpMove` and `WalkingMove` did), the transform
position equals `target_position` and `target_position.y` is at least the terrain height at
the planar coordinates of `target_position` plus the body height. -/
theorem C17_floor_invariant (L : Glm F) (EPSILON : F) (terrain : Terrain F) (a : Agent F)
    (dt : F) :
    ((a.DownMove terrain dt).transform.GetPosition = (a.DownMove terrain dt).target_position_ ∧
        (a.DownMove terrain dt).target_position_.y ≥
          terrain.SampleHeight (a.DownMove terrain dt).target_position_.x
              (a.DownMove terrain dt).target_position_.z +
            (a.DownMove terrain dt).height_) ∧
      ((a.Update L EPSILON terrain dt).transform.GetPosition =
          (a.Update L EPSILON terrain dt).target_position_ ∧
        (a.Update L EPSILON terrain dt).target_position_.y ≥
          terrain.SampleHeight (a.Update L EPSILON terrain dt).target_position_.x
              (a.Update L EPSILON terrain dt).target_position_.z +
            (a.Update L EPSILON terrain dt).height_) := by
  refine ⟨DownMove_floor terrain a dt, ?_⟩
  rw [Update_stages]
  exact DownMove_floor terrain _ dt

/-- C18 fails on the code.  In the two-beacon course with the second beacon active (index 1 of
2, so the index is within bounds) and the player at that beacon, the call increments the index
to 2, the size of the vector, and its access `beacons[2]` of line 256 is out of bounds; the
call does not return with an index below the size. -/
theorem C18_index_leaves_bounds :
    (secondBeaconGame : Game ℝ).beacons ≠ [] ∧
      (secondBeaconGame : Game ℝ).active_beacon_index <
        (secondBeaconGame : Game ℝ).beacons.length ∧
      (secondBeaconGame : Game ℝ).beacons[(secondBeaconGame : Game ℝ).active_beacon_index]? =
        some farBeacon ∧
      ((secondBeaconGame : Game ℝ).beaconHit farBeacon).active_beacon_index =
        ((secondBeaconGame : Game ℝ).beaconHit farBeacon).beacons.length ∧
      ((secondBeaconGame : Game ℝ).beaconHit farBeacon).beacons[
        ((secondBeaconGame : Game ℝ).beaconHit farBeacon).active_beacon_index]? = none ∧
      (secondBeaconGame : Game ℝ).CheckCollisions realGlm = none := by
  have hzero : length realGlm ((secondBeaconGame : Game ℝ).player.transform.position -
      (farBeacon : SceneNode ℝ).transform.position) = 0 := by
    show Real.sqrt (dot _ _) = 0
    have h0 : dot ((secondBeaconGame : Game ℝ).player.transform.position -
        (farBeacon : SceneNode ℝ).transform.position)
        ((secondBeaconGame : Game ℝ).player.transform.position -
          (farBeacon : SceneNode ℝ).transform.position) = 0 := by
      norm_num [dot, secondBeaconGame, twoBeaconGame, farBeacon]
    rw [h0, Real.sqrt_zero]
  obtain ⟨-, -, hix, hnone, -, hcc⟩ := checkBeacons_last_hit realGlm
    (secondBeaconGame : Game ℝ) farBeacon rfl rfl
    (by rw [hzero]; norm_num [player_hitbox_g, beacon_hitbox_g])
  refine ⟨by simp [secondBeaconGame, twoBeaconGame], ?_, rfl, hix, hnone, hcc⟩
  simp [secondBeaconGame, twoBeaconGame]

end Claims















end DNA
